import Mathlib

/-!
# SceneManager.cpp: texture registry, material registry, shader binding facade

A shallow embedding of `7-1_FinalProjectMilestones/Source/SceneManager.cpp`.

* The members of the scene manager become the fields of the structure `SceneManager`.
* Methods become functions that take the state and return the new state in
  `Except Fault`: a null dereference, an out-of-bounds array access or an
  exhausted loop budget is an explicit fault, never a silent result.
* `float` is a type parameter `F`, `glm::mat4` a type parameter `M`; the GLM
  primitives enter through the record `GLM`.
* The shader collaborator is a recording double: the list of uniform writes in
  call order, from which the latched value of each uniform is read back.
-/

set_option autoImplicit false

deriving instance DecidableEq for Except

/-- Ways in which a method of the scene manager can fail to complete. -/
inductive Fault where
  | nullDereference
  | outOfBounds
  | outOfFuel
  deriving DecidableEq, Repr

/-- The type `glm::vec2` over the scalar type `F`. -/
structure vec2 (F : Type) where
  x : F
  y : F
  deriving DecidableEq, Repr

/-- The type `glm::vec3` over the scalar type `F`. -/
structure vec3 (F : Type) where
  x : F
  y : F
  z : F
  deriving DecidableEq, Repr

/-- The type `glm::vec4` over the scalar type `F`, with the colour names of its
components, which is how `SetShaderColor` fills it. -/
structure vec4 (F : Type) where
  r : F
  g : F
  b : F
  a : F
  deriving DecidableEq, Repr

/-- One record of `m_textureIDs`. The struct is declared in `SceneManager.h`,
which is not among the sources; `ID` is a `GLuint`, the type of the local it is
assigned from in `CreateGLTexture` and of the pointer `DestroyGLTextures` hands
to `glGenTextures`: an unsigned 32-bit texture name, held as a natural
number. -/
structure TEXTURE_INFO where
  ID : Nat
  tag : String
  deriving DecidableEq, Repr

/-- One record of `m_objectMaterials`, with the fields `SceneManager.cpp` uses
(the struct is declared in `SceneManager.h`, which is not among the sources). -/
structure OBJECT_MATERIAL (F : Type) where
  diffuseColor : vec3 F
  specularColor : vec3 F
  shininess : F
  tag : String
  deriving DecidableEq, Repr

/-- A value handed to one of the typed setters of the shader collaborator. -/
inductive UniformValue (F M : Type) where
  | boolValue (b : Bool)
  | intValue (i : Int)
  | floatValue (x : F)
  | vec2Value (v : vec2 F)
  | vec3Value (v : vec3 F)
  | vec4Value (v : vec4 F)
  | mat4Value (m : M)
  | sampler2DValue (slot : Int)
  deriving DecidableEq, Repr

/-- Modelled from the spec: the shader collaborator `ShaderManager` (its class
is not among the sources) is "a minimal uniform-publication interface with
typed setters" whose operations "take effect on the shader in call order" and
whose values are latched. The model is a recording double: every write, oldest
first. -/
structure ShaderManager (F M : Type) where
  writes : List (String × UniformValue F M)
  deriving DecidableEq, Repr

namespace ShaderManager

variable {F M : Type}

/-- One uniform write, appended to the record. -/
def publish (sh : ShaderManager F M) (name : String) (v : UniformValue F M) :
    ShaderManager F M :=
  { writes := sh.writes ++ [(name, v)] }

/-- Setter `setBoolValue`. -/
def setBoolValue (sh : ShaderManager F M) (name : String) (b : Bool) : ShaderManager F M :=
  sh.publish name (.boolValue b)

/-- Setter `setIntValue`. -/
def setIntValue (sh : ShaderManager F M) (name : String) (i : Int) : ShaderManager F M :=
  sh.publish name (.intValue i)

/-- Setter `setFloatValue`. -/
def setFloatValue (sh : ShaderManager F M) (name : String) (x : F) : ShaderManager F M :=
  sh.publish name (.floatValue x)

/-- Setter `setVec2Value`. -/
def setVec2Value (sh : ShaderManager F M) (name : String) (v : vec2 F) : ShaderManager F M :=
  sh.publish name (.vec2Value v)

/-- Setter `setVec3Value`. -/
def setVec3Value (sh : ShaderManager F M) (name : String) (v : vec3 F) : ShaderManager F M :=
  sh.publish name (.vec3Value v)

/-- Setter `setVec4Value`. -/
def setVec4Value (sh : ShaderManager F M) (name : String) (v : vec4 F) : ShaderManager F M :=
  sh.publish name (.vec4Value v)

/-- Setter `setMat4Value`. -/
def setMat4Value (sh : ShaderManager F M) (name : String) (m : M) : ShaderManager F M :=
  sh.publish name (.mat4Value m)

/-- Setter `setSampler2DValue`. -/
def setSampler2DValue (sh : ShaderManager F M) (name : String) (slot : Int) :
    ShaderManager F M :=
  sh.publish name (.sampler2DValue slot)

/-- The latched value of a uniform: the most recent write to that name, if any. -/
def latched (sh : ShaderManager F M) (name : String) : Option (UniformValue F M) :=
  (sh.writes.reverse.find? (fun w => decide (w.1 = name))).map Prod.snd

end ShaderManager

/-- The conversion of a C++ `bool` argument to the `int` parameter of
`setIntValue`. -/
def boolToInt (b : Bool) : Int := if b then 1 else 0

/-- Global `g_ModelName`. -/
def g_ModelName : String := "model"
/-- Global `g_ColorValueName`. -/
def g_ColorValueName : String := "objectColor"
/-- Global `g_TextureValueName`. -/
def g_TextureValueName : String := "objectTexture"
/-- Global `g_UseTextureName`. -/
def g_UseTextureName : String := "bUseTexture"
/-- Global `g_UseLightingName`. -/
def g_UseLightingName : String := "bUseLighting"

/-- The primitives of the mesh collaborator. -/
inductive Mesh where
  | plane
  | cylinder
  | torus
  | box
  | pyramid4
  deriving DecidableEq, Repr

/-- Modelled from the spec: the primitive mesh collaborator `ShapeMeshes` (its
class is not among the sources) offers one draw operation per primitive, and
"each draw consumes whatever `model` and shading uniforms are currently
latched". The model is a recording double: every draw, oldest first, with the
shader record it was issued against (`none` when there is no shader). -/
structure ShapeMeshes (F M : Type) where
  draws : List (Mesh × Option (ShaderManager F M))
  deriving DecidableEq, Repr

/-- The members of the class `SceneManager` that the embedded methods touch.
`m_textureIDs` is the fixed-size array of texture records: its length is the
capacity declared in `SceneManager.h` (not among the sources), and only its
first `m_loadedTextures` entries are meaningful. `m_pShaderManager` is a
pointer, `none` standing for `NULL`; `m_basicMeshes` is the mesh collaborator
the constructor allocates. -/
structure SceneManager (F M : Type) where
  m_pShaderManager : Option (ShaderManager F M)
  m_basicMeshes : ShapeMeshes F M
  m_textureIDs : List TEXTURE_INFO
  m_loadedTextures : Nat
  m_objectMaterials : List (OBJECT_MATERIAL F)
  deriving DecidableEq, Repr

/-- What `stbi_load` reports for a file it could read. -/
structure StbImage where
  width : Int
  height : Int
  colorChannels : Int
  deriving DecidableEq, Repr

namespace SceneManager

variable {F M : Type}

/-- The loop of `FindTextureSlot`, one iteration per unit of fuel, on the
locals `index`, `textureSlot` and `bFound`. -/
def FindTextureSlot.loop (s : SceneManager F M) (tag : String) :
    Nat → Nat → Int → Bool → Except Fault Int
  | 0, _, _, _ => .error .outOfFuel
  | fuel + 1, index, textureSlot, bFound =>
    if index < s.m_loadedTextures ∧ bFound = false then
      match s.m_textureIDs[index]? with
      | none => .error .outOfBounds
      | some rec =>
        if rec.tag = tag then
          FindTextureSlot.loop s tag fuel index (index : Int) true
        else
          FindTextureSlot.loop s tag fuel (index + 1) textureSlot bFound
    else
      .ok textureSlot

/-- Method `SceneManager::FindTextureSlot`. -/
def FindTextureSlot (s : SceneManager F M) (tag : String) : Except Fault Int :=
  FindTextureSlot.loop s tag (s.m_loadedTextures + 2) 0 (-1) false

/-- The conversion of a `GLuint` to `int`, as in the assignment
`textureID = m_textureIDs[index].ID` of `FindTextureID`: the value is kept
below `2 ^ 31` and wraps to the negative numbers from there on. -/
def GLuintToInt (id : Nat) : Int :=
  if id % 2 ^ 32 < 2 ^ 31 then ((id % 2 ^ 32 : Nat) : Int)
  else ((id % 2 ^ 32 : Nat) : Int) - 2 ^ 32

/-- The loop of `FindTextureID`, one iteration per unit of fuel, on the locals
`index`, `textureID` and `bFound`. -/
def FindTextureID.loop (s : SceneManager F M) (tag : String) :
    Nat → Nat → Int → Bool → Except Fault Int
  | 0, _, _, _ => .error .outOfFuel
  | fuel + 1, index, textureID, bFound =>
    if index < s.m_loadedTextures ∧ bFound = false then
      match s.m_textureIDs[index]? with
      | none => .error .outOfBounds
      | some rec =>
        if rec.tag = tag then
          FindTextureID.loop s tag fuel index (GLuintToInt rec.ID) true
        else
          FindTextureID.loop s tag fuel (index + 1) textureID bFound
    else
      .ok textureID

/-- Method `SceneManager::FindTextureID`. -/
def FindTextureID (s : SceneManager F M) (tag : String) : Except Fault Int :=
  FindTextureID.loop s tag (s.m_loadedTextures + 2) 0 (-1) false

/-- Method `SceneManager::CreateGLTexture`. What the decoder answers for
`filename` is the argument `image` (`none` for a null pointer), and `textureID` is the
name `glGenTextures` hands out. The OpenGL calls act on the GPU collaborator
only and leave the members of the scene manager alone, so the branches for 3
and for 4 channels, which differ in the upload call, are one branch here. The
source does not test the index of the write to
`m_textureIDs[m_loadedTextures]`; beyond the array the write has no defined
behaviour, and the model stops there with a fault. The result is the returned
`bool` with the state after the call. -/
def CreateGLTexture (s : SceneManager F M) (image : Option StbImage) (textureID : Nat)
    (tag : String) : Except Fault (Bool × SceneManager F M) :=
  match image with
  | some img =>
    if img.colorChannels = 3 ∨ img.colorChannels = 4 then
      if s.m_loadedTextures < s.m_textureIDs.length then
        .ok (true,
          { s with
            m_textureIDs := s.m_textureIDs.set s.m_loadedTextures { ID := textureID, tag := tag }
            m_loadedTextures := s.m_loadedTextures + 1 })
      else
        .error .outOfBounds
    else
      .ok (false, s)
  | none => .ok (false, s)

/-- The loop of `FindMaterial`, one iteration per unit of fuel, on the locals
`index` and `bFound` and the out-parameter `material`. A hit copies the three
shading fields into `material`, field by field. -/
def FindMaterial.loop (s : SceneManager F M) (tag : String) :
    Nat → Nat → Bool → OBJECT_MATERIAL F → Except Fault (OBJECT_MATERIAL F)
  | 0, _, _, _ => .error .outOfFuel
  | fuel + 1, index, bFound, material =>
    if index < s.m_objectMaterials.length ∧ bFound = false then
      match s.m_objectMaterials[index]? with
      | none => .error .outOfBounds
      | some rec =>
        if rec.tag = tag then
          FindMaterial.loop s tag fuel index true
            { material with
              diffuseColor := rec.diffuseColor
              specularColor := rec.specularColor
              shininess := rec.shininess }
        else
          FindMaterial.loop s tag fuel (index + 1) bFound material
    else
      .ok material

/-- Method `SceneManager::FindMaterial`: the returned `bool` with the
out-parameter `material` after the call. -/
def FindMaterial (s : SceneManager F M) (tag : String) (material : OBJECT_MATERIAL F) :
    Except Fault (Bool × OBJECT_MATERIAL F) :=
  if s.m_objectMaterials.length = 0 then
    .ok (false, material)
  else
    match FindMaterial.loop s tag (s.m_objectMaterials.length + 2) 0 false material with
    | .error e => .error e
    | .ok material => .ok (true, material)

end SceneManager

/-- The GLM primitives `SetTransformations` calls, over the scalar type `F` and
the matrix type `M`: the product of two `glm::mat4`, `glm::scale`,
`glm::rotate` (angle, axis), `glm::translate` and `glm::radians`. GLM is a
library outside the repository; its floating-point arithmetic stays behind
this interface. -/
structure GLM (F M : Type) where
  mul : M → M → M
  scale : vec3 F → M
  rotate : F → vec3 F → M
  translate : vec3 F → M
  radians : F → F

namespace SceneManager

variable {F M : Type}

/-- Method `SceneManager::SetTransformations`. -/
def SetTransformations [Zero F] [One F] (G : GLM F M) (s : SceneManager F M)
    (scaleXYZ : vec3 F) (XrotationDegrees YrotationDegrees ZrotationDegrees : F)
    (positionXYZ : vec3 F) : Except Fault (SceneManager F M) :=
  let scale := G.scale scaleXYZ
  let rotationX := G.rotate (G.radians XrotationDegrees) ⟨1, 0, 0⟩
  let rotationY := G.rotate (G.radians YrotationDegrees) ⟨0, 1, 0⟩
  let rotationZ := G.rotate (G.radians ZrotationDegrees) ⟨0, 0, 1⟩
  let translation := G.translate positionXYZ
  let modelView := G.mul (G.mul (G.mul (G.mul translation rotationZ) rotationY) rotationX) scale
  match s.m_pShaderManager with
  | some sh => .ok { s with m_pShaderManager := some (sh.setMat4Value g_ModelName modelView) }
  | none => .ok s

/-- Method `SceneManager::SetShaderColor`. -/
def SetShaderColor (s : SceneManager F M)
    (redColorValue greenColorValue blueColorValue alphaValue : F) :
    Except Fault (SceneManager F M) :=
  let currentColor : vec4 F :=
    { r := redColorValue, g := greenColorValue, b := blueColorValue, a := alphaValue }
  match s.m_pShaderManager with
  | some sh =>
    .ok { s with
      m_pShaderManager :=
        some ((sh.setIntValue g_UseTextureName (boolToInt false)).setVec4Value
          g_ColorValueName currentColor) }
  | none => .ok s

/-- Method `SceneManager::SetShaderTexture`. -/
def SetShaderTexture (s : SceneManager F M) (textureTag : String) :
    Except Fault (SceneManager F M) :=
  match s.m_pShaderManager with
  | some sh =>
    let sh := sh.setIntValue g_UseTextureName (boolToInt true)
    match FindTextureSlot s textureTag with
    | .error e => .error e
    | .ok textureID =>
      .ok { s with m_pShaderManager := some (sh.setSampler2DValue g_TextureValueName textureID) }
  | none => .ok s

/-- Method `SceneManager::SetTextureUVScale`. -/
def SetTextureUVScale (s : SceneManager F M) (u v : F) : Except Fault (SceneManager F M) :=
  match s.m_pShaderManager with
  | some sh => .ok { s with m_pShaderManager := some (sh.setVec2Value "UVscale" ⟨u, v⟩) }
  | none => .ok s

/-- Method `SceneManager::SetShaderMaterial`. The local `material` is declared
without an initialiser; the argument `material` is whatever it holds before
`FindMaterial` is called. The three setters are called through
`m_pShaderManager` with no test of the pointer. -/
def SetShaderMaterial (s : SceneManager F M) (materialTag : String)
    (material : OBJECT_MATERIAL F) : Except Fault (SceneManager F M) :=
  if s.m_objectMaterials.length > 0 then
    match FindMaterial s materialTag material with
    | .error e => .error e
    | .ok (bReturn, material) =>
      if bReturn = true then
        match s.m_pShaderManager with
        | none => .error .nullDereference
        | some sh =>
          .ok { s with
            m_pShaderManager :=
              some (((sh.setVec3Value "material.diffuseColor" material.diffuseColor).setVec3Value
                "material.specularColor" material.specularColor).setFloatValue
                "material.shininess" material.shininess) }
      else
        .ok s
  else
    .ok s

/-- A draw call on the mesh collaborator: it is recorded with the shader
record of that moment. -/
def Draw (s : SceneManager F M) (mesh : Mesh) : SceneManager F M :=
  { s with m_basicMeshes := { draws := s.m_basicMeshes.draws ++ [(mesh, s.m_pShaderManager)] } }

end SceneManager

/-- A rational number that a binary32 `float` holds exactly: an integer
significand below `2 ^ 24` in magnitude times a power of two within the
exponent range of the format. -/
def isBinary32 (q : ℚ) : Prop :=
  ∃ m e : ℤ, |m| < 2 ^ 24 ∧ -149 ≤ e ∧ e ≤ 104 ∧ q = (m : ℚ) * (2 : ℚ) ^ e

/-- The value of the `size_t` expression `10 - keys.size()`: the `int` literal
is converted to the unsigned 64-bit type and the subtraction wraps. -/
def sizeTenMinus (size : Nat) : Nat :=
  (10 + (2 ^ 64 - size % 2 ^ 64)) % 2 ^ 64

namespace SceneManager

variable {M : Type}

/-- The local `offsetX` of the lambda `drawKeyRow` in `RenderScene`. Floats are
rationals and `fl` is the rounding every float operation and every conversion
to `float` ends with. -/
def drawKeyRow.offsetX (fl : ℚ → ℚ) (startX : ℚ) (keys : List String) : ℚ :=
  fl (startX + fl (fl (sizeTenMinus keys.length : ℚ) * fl (1 / 2)))

/-- The local `keyPosition` of the lambda `drawKeyRow` in iteration `i`. -/
def drawKeyRow.keyPosition (fl : ℚ → ℚ) (startX spacingX startZ : ℚ) (keys : List String)
    (rowZ : ℚ) (i : Nat) : vec3 ℚ :=
  let offsetX := drawKeyRow.offsetX fl startX keys
  let x := fl (offsetX + fl (fl (i : ℚ) * spacingX))
  ⟨x, fl (1 / 2), fl (startZ + rowZ)⟩

/-- One iteration of the loop of `drawKeyRow`: transform, flat colour, box. -/
def drawKeyRow.body (fl : ℚ → ℚ) (G : GLM ℚ M) (keyScale : vec3 ℚ)
    (startX spacingX startZ : ℚ) (keys : List String) (rowZ : ℚ)
    (s : SceneManager ℚ M) (i : Nat) : Except Fault (SceneManager ℚ M) :=
  match SetTransformations G s keyScale (fl 0) (fl 0) (fl 0)
      (drawKeyRow.keyPosition fl startX spacingX startZ keys rowZ i) with
  | .error e => .error e
  | .ok s1 =>
    match SetShaderColor s1 (fl (83 / 100)) (fl (83 / 100)) (fl (83 / 100)) (fl 1) with
    | .error e => .error e
    | .ok s2 => .ok (Draw s2 .box)

/-- The lambda `drawKeyRow` of `RenderScene`: the loop runs `i` over
`0 .. keys.size() - 1`. The captured locals `keyScale`, `startX`, `spacingX`
and `startZ` are arguments. -/
def drawKeyRow (fl : ℚ → ℚ) (G : GLM ℚ M) (keyScale : vec3 ℚ) (startX spacingX startZ : ℚ)
    (s : SceneManager ℚ M) (keys : List String) (rowZ : ℚ) : Except Fault (SceneManager ℚ M) :=
  (List.range keys.length).foldlM
    (drawKeyRow.body fl G keyScale startX spacingX startZ keys rowZ) s

/-- The X coordinates `drawKeyRow` hands to `SetTransformations`, key by key. -/
def drawKeyRow.xs (fl : ℚ → ℚ) (startX spacingX startZ : ℚ) (keys : List String)
    (rowZ : ℚ) : List ℚ :=
  (List.range keys.length).map
    (fun i => (drawKeyRow.keyPosition fl startX spacingX startZ keys rowZ i).x)

end SceneManager

/-- One call of `CreateGLTexture` as seen from outside: the tag passed in,
together with what the image decoder answers for the file and the texture name
OpenGL hands out. -/
structure LoadCall where
  image : Option StbImage
  textureID : Nat
  tag : String
  deriving DecidableEq, Repr

namespace SceneManager

variable {F M : Type}

/-- A sequence of `CreateGLTexture` calls, run in order: the values returned,
call by call, with the state after the last call. -/
def CreateGLTextures (s : SceneManager F M) :
    List LoadCall → Except Fault (List Bool × SceneManager F M)
  | [] => .ok ([], s)
  | c :: cs =>
    match CreateGLTexture s c.image c.textureID c.tag with
    | .error e => .error e
    | .ok (b, s1) =>
      match CreateGLTextures s1 cs with
      | .error e => .error e
      | .ok (bs, s2) => .ok (b :: bs, s2)

/-- The registered texture records: entries `0 .. m_loadedTextures - 1` of the
array. -/
def loadedRecords (s : SceneManager F M) : List TEXTURE_INFO :=
  s.m_textureIDs.take s.m_loadedTextures

end SceneManager

/-- A call of one of the two operations that choose between flat colour and
texture. -/
inductive ShadingCall (F : Type) where
  | SetShaderColor (r g b a : F)
  | SetShaderTexture (textureTag : String)
  deriving DecidableEq, Repr

namespace SceneManager

variable {F M : Type}

/-- One `ShadingCall`, dispatched to the method it names. -/
def shadingCall (s : SceneManager F M) : ShadingCall F → Except Fault (SceneManager F M)
  | .SetShaderColor r g b a => SetShaderColor s r g b a
  | .SetShaderTexture textureTag => SetShaderTexture s textureTag

/-- A sequence of `ShadingCall`s, run in order. -/
def shadingCalls (s : SceneManager F M) : List (ShadingCall F) → Except Fault (SceneManager F M)
  | [] => .ok s
  | c :: cs =>
    match shadingCall s c with
    | .error e => .error e
    | .ok s1 => shadingCalls s1 cs

end SceneManager

/-- A scene manager whose texture array of `capacity` entries starts with the
given records, all of them registered, the other entries holding default
records: no material defined, nothing drawn. -/
def SceneManager.withTextures {F M : Type} (pShaderManager : Option (ShaderManager F M))
    (records : List TEXTURE_INFO) (capacity : Nat) : SceneManager F M :=
  { m_pShaderManager := pShaderManager
    m_basicMeshes := { draws := [] }
    m_textureIDs := records ++ List.replicate (capacity - records.length) { ID := 0, tag := "" }
    m_loadedTextures := records.length
    m_objectMaterials := [] }

/-- A scene manager with an empty texture registry: a texture array of
`capacity` entries and no texture loaded. -/
def SceneManager.fresh {F M : Type} (pShaderManager : Option (ShaderManager F M))
    (capacity : Nat) : SceneManager F M :=
  SceneManager.withTextures pShaderManager [] capacity

/-- A decoded RGB image, as `stbi_load` reports it. -/
def rgbImage : StbImage := { width := 64, height := 64, colorChannels := 3 }

/-- A decoded RGBA image, as `stbi_load` reports it. -/
def rgbaImage : StbImage := { width := 64, height := 64, colorChannels := 4 }

/-- A decoded single-channel image, as `stbi_load` reports it. -/
def greyImage : StbImage := { width := 64, height := 64, colorChannels := 1 }

namespace SceneManager

variable {M : Type}

/-- Method `SceneManager::DefineObjectMaterials`: the two materials of the
scene, pushed in source order. `fl` is the rounding of a decimal literal to
`float`. -/
def DefineObjectMaterials (fl : ℚ → ℚ) (s : SceneManager ℚ M) : SceneManager ℚ M :=
  let mat : OBJECT_MATERIAL ℚ :=
    { tag := "default"
      diffuseColor := ⟨fl 1, fl 1, fl 1⟩
      specularColor := ⟨fl (1 / 2), fl (1 / 2), fl (1 / 2)⟩
      shininess := fl 32 }
  let s := { s with m_objectMaterials := s.m_objectMaterials ++ [mat] }
  let ceramic : OBJECT_MATERIAL ℚ :=
    { tag := "ceramicRed"
      diffuseColor := ⟨fl 1, fl 0, fl 0⟩
      specularColor := ⟨fl (9 / 10), fl (9 / 10), fl (9 / 10)⟩
      shininess := fl 64 }
  { s with m_objectMaterials := s.m_objectMaterials ++ [ceramic] }

end SceneManager

/-- The local `row3` of `RenderScene`. -/
def row3 : List String := ["Z", "X", "C", "V", "B", "N", "M"]

/-- An exact-arithmetic instance of the GLM interface, over 4×4 rational
matrices with the matrix product: `scale` is the diagonal matrix, `translate`
the identity with the vector in the last column, `rotate` the rotation by the
angle about a unit axis, and `radians` the multiplication by the constant
`k`. The cosine and the sine are the parameters `c` and `sn`. -/
def glmExact (c sn : ℚ → ℚ) (k : ℚ) : GLM ℚ (Matrix (Fin 4) (Fin 4) ℚ) where
  mul := fun A B => A * B
  scale := fun v => !![v.x, 0, 0, 0; 0, v.y, 0, 0; 0, 0, v.z, 0; 0, 0, 0, 1]
  rotate := fun angle v =>
    let t := 1 - c angle
    !![c angle + t * v.x * v.x, t * v.x * v.y - sn angle * v.z, t * v.x * v.z + sn angle * v.y, 0;
       t * v.x * v.y + sn angle * v.z, c angle + t * v.y * v.y, t * v.y * v.z - sn angle * v.x, 0;
       t * v.x * v.z - sn angle * v.y, t * v.y * v.z + sn angle * v.x, c angle + t * v.z * v.z, 0;
       0, 0, 0, 1]
  translate := fun v => !![1, 0, 0, v.x; 0, 1, 0, v.y; 0, 0, 1, v.z; 0, 0, 0, 1]
  radians := fun degrees => degrees * k

/-- The material `"default"` of `DefineObjectMaterials`, with exact values. -/
def defaultMaterial : OBJECT_MATERIAL ℚ :=
  { tag := "default"
    diffuseColor := ⟨1, 1, 1⟩
    specularColor := ⟨1 / 2, 1 / 2, 1 / 2⟩
    shininess := 32 }

/-- A material record with the tag `"ceramicRed"`. -/
def ceramicRed : OBJECT_MATERIAL ℚ :=
  { tag := "ceramicRed"
    diffuseColor := ⟨1, 0, 0⟩
    specularColor := ⟨9 / 10, 9 / 10, 9 / 10⟩
    shininess := 64 }

/-- A second material record with the tag `"ceramicRed"` and other values. -/
def ceramicRedLater : OBJECT_MATERIAL ℚ :=
  { tag := "ceramicRed"
    diffuseColor := ⟨1 / 4, 0, 0⟩
    specularColor := ⟨1 / 8, 1 / 8, 1 / 8⟩
    shininess := 2 }

/-- What an uninitialised local `OBJECT_MATERIAL` may hold: some tag and some
numbers, none of them from the registry. -/
def staleMaterial : OBJECT_MATERIAL ℚ :=
  { tag := ""
    diffuseColor := ⟨-7, 5, 3⟩
    specularColor := ⟨11, -13, 17⟩
    shininess := -1 }

/-- A shader record in which the material `"default"` is latched. -/
def shaderWithDefaultMaterial : ShaderManager ℚ Unit :=
  { writes :=
      [("material.diffuseColor", .vec3Value ⟨1, 1, 1⟩),
       ("material.specularColor", .vec3Value ⟨1 / 2, 1 / 2, 1 / 2⟩),
       ("material.shininess", .floatValue 32)] }

/-- A scene manager whose material registry is `{"default"}`, with the given
shader pointer. -/
def sceneWithDefaultMaterial (pShaderManager : Option (ShaderManager ℚ Unit)) :
    SceneManager ℚ Unit :=
  { SceneManager.fresh pShaderManager 16 with m_objectMaterials := [defaultMaterial] }

/-- A rational cosine for angles in degrees, through the half-angle tangent
`d / 90`: exact at 0 and at 90 degrees, and with `sinDegrees` a point of the
unit circle at every angle. -/
def cosDegrees (d : ℚ) : ℚ := (1 - (d / 90) ^ 2) / (1 + (d / 90) ^ 2)

/-- The rational sine that goes with `cosDegrees`: exact at 0 and at 90
degrees. -/
def sinDegrees (d : ℚ) : ℚ := 2 * (d / 90) / (1 + (d / 90) ^ 2)

/-- The exact instance of the GLM interface on `cosDegrees` and `sinDegrees`:
angles stay in degrees (`radians` multiplies by 1), so the rotations by 0 and
by 90 degrees, the two angles of the scene, are the exact ones. -/
def glmDegrees : GLM ℚ (Matrix (Fin 4) (Fin 4) ℚ) := glmExact cosDegrees sinDegrees 1

/-- The local `row1` of `RenderScene`. -/
def row1 : List String := ["Q", "W", "E", "R", "T", "Y", "U", "I", "O", "P"]

/-- The local `row2` of `RenderScene`. -/
def row2 : List String := ["A", "S", "D", "F", "G", "H", "J", "K", "L"]

namespace SceneManager

variable {M : Type}

/-- The statement `m_pShaderManager->setIntValue(g_UseLightingName, b)` of
`RenderScene`: the pointer is used with no test. -/
def setUseLighting (s : SceneManager ℚ M) (b : Bool) : Except Fault (SceneManager ℚ M) :=
  match s.m_pShaderManager with
  | none => .error .nullDereference
  | some sh =>
    .ok { s with m_pShaderManager := some (sh.setIntValue g_UseLightingName (boolToInt b)) }

/-- Method `SceneManager::RenderScene`, statement by statement; the values of
the locals `scaleXYZ`, `XrotationDegrees`, `YrotationDegrees`,
`ZrotationDegrees` and `positionXYZ` are written at the call that reads them.
`fl` rounds a decimal literal to `float`, and `material` is what the local of
`SetShaderMaterial` holds before the lookup. -/
def RenderScene (fl : ℚ → ℚ) (G : GLM ℚ M) (s : SceneManager ℚ M)
    (material : OBJECT_MATERIAL ℚ) : Except Fault (SceneManager ℚ M) := do
  -- desk
  let s ← SetTransformations G s ⟨fl 20, fl 1, fl 15⟩ (fl 0) (fl 0) (fl 0) ⟨fl 0, fl 0, fl 0⟩
  let s ← setUseLighting s true
  let s ← SetShaderMaterial s "default" material
  let s ← SetShaderTexture s "desk"
  let s ← SetTextureUVScale s (fl 1) (fl 1)
  let s ← pure (Draw s .plane)
  -- back plane
  let s ← SetTransformations G s ⟨fl 20, fl 1, fl 15⟩ (fl 90) (fl 0) (fl 0)
    ⟨fl 0, fl 15, -fl 15⟩
  let s ← SetShaderTexture s "wall"
  let s ← SetTextureUVScale s (fl 1) (fl 1)
  let s ← pure (Draw s .plane)
  -- mug outer cylinder
  let s ← SetTransformations G s ⟨fl 1, fl 2, fl 1⟩ (fl 0) (fl 0) (fl 0)
    ⟨-fl (15 / 2), fl 0, fl 0⟩
  let s ← SetShaderTexture s "matteBlack"
  let s ← SetTextureUVScale s (fl 1) (fl 1)
  let s ← pure (Draw s .cylinder)
  -- inner cavity, red
  let s ← SetTransformations G s ⟨fl (9 / 10), fl (9 / 5), fl (9 / 10)⟩ (fl 0) (fl 0) (fl 0)
    ⟨-fl (15 / 2), fl (21 / 100), fl 0⟩
  let s ← SetShaderColor s (fl 1) (fl 0) (fl 0) (fl 1)
  let s ← pure (Draw s .cylinder)
  -- inner cavity with the foam texture
  let s ← SetTransformations G s ⟨fl (4 / 5), fl (17 / 10), fl (4 / 5)⟩ (fl 0) (fl 0) (fl 0)
    ⟨-fl (15 / 2), fl (8 / 25), fl 0⟩
  let s ← setUseLighting s false
  let s ← SetShaderTexture s "foam"
  let s ← SetTextureUVScale s (fl 1) (fl 1)
  let s ← pure (Draw s .cylinder)
  -- handle
  let s ← SetTransformations G s ⟨fl (4 / 5), fl (4 / 5), fl (4 / 5)⟩ (fl 0) (fl 0) (fl 0)
    ⟨-fl (17 / 2), fl 1, fl 0⟩
  let s ← SetShaderTexture s "matteBlack"
  let s ← SetTextureUVScale s (fl 1) (fl 1)
  let s ← pure (Draw s .torus)
  -- keyboard base
  let s ← SetTransformations G s ⟨fl 10, fl (1 / 2), fl 4⟩ (fl 0) (fl 0) (fl 0)
    ⟨fl 0, fl (1 / 4), fl 3⟩
  let s ← SetShaderTexture s "matteBlack"
  let s ← SetTextureUVScale s (fl 1) (fl 1)
  let s ← pure (Draw s .box)
  -- keys
  let s ← drawKeyRow fl G ⟨fl (4 / 5), fl (1 / 5), fl (4 / 5)⟩ (-fl (9 / 2)) (fl 1) (fl 1)
    s row3 (fl 3)
  let s ← drawKeyRow fl G ⟨fl (4 / 5), fl (1 / 5), fl (4 / 5)⟩ (-fl (9 / 2)) (fl 1) (fl 1)
    s row2 (fl 2)
  let s ← drawKeyRow fl G ⟨fl (4 / 5), fl (1 / 5), fl (4 / 5)⟩ (-fl (9 / 2)) (fl 1) (fl 1)
    s row1 (fl 1)
  -- pyramid
  let s ← SetTransformations G s ⟨fl 2, fl 5, fl 2⟩ (fl 0) (fl 0) (fl 0)
    ⟨fl 8, fl (5 / 2), fl 0⟩
  let s ← SetShaderTexture s "pyramid"
  let s ← SetTextureUVScale s (fl 1) (fl 1)
  let s ← pure (Draw s .pyramid4)
  -- computer base
  let s ← SetTransformations G s ⟨fl 3, fl (1 / 2), fl 3⟩ (fl 0) (fl 0) (fl 0)
    ⟨fl 0, fl (1 / 2), -fl 4⟩
  let s ← SetShaderTexture s "matteBlack"
  let s ← SetTextureUVScale s (fl 1) (fl 1)
  let s ← pure (Draw s .plane)
  -- computer stand
  let s ← SetTransformations G s ⟨fl 1, fl 9, fl 1⟩ (fl 0) (fl 0) (fl 0)
    ⟨fl 0, fl 5, -fl 5⟩
  let s ← SetShaderTexture s "matteBlack"
  let s ← SetTextureUVScale s (fl 1) (fl 1)
  let s ← pure (Draw s .box)
  -- computer stand arm
  let s ← SetTransformations G s ⟨fl 1, fl 1, fl 2⟩ (fl 0) (fl 0) (fl 0)
    ⟨fl 0, fl 8, -fl (9 / 2)⟩
  let s ← SetShaderTexture s "matteBlack"
  let s ← SetTextureUVScale s (fl 1) (fl 1)
  let s ← pure (Draw s .box)
  -- computer screen, the bezel
  let s ← SetTransformations G s ⟨fl 15, fl 10, fl 1⟩ (fl 0) (fl 0) (fl 0)
    ⟨fl 0, fl 8, -fl (7 / 2)⟩
  let s ← SetShaderTexture s "matteBlack"
  let s ← SetTextureUVScale s (fl 1) (fl 1)
  let s ← pure (Draw s .box)
  -- screen
  let s ← SetTransformations G s ⟨fl 6, fl 1, fl 4⟩ (fl 90) (fl 0) (fl 0)
    ⟨fl 0, fl 8, -fl (29 / 10)⟩
  let s ← SetShaderTexture s "screen"
  pure (Draw s .plane)

end SceneManager

/-- One statement of `RenderScene`, as data. -/
inductive SceneCall where
  | SetTransformations (scaleXYZ : vec3 ℚ) (X Y Z : ℚ) (positionXYZ : vec3 ℚ)
  | setUseLighting (b : Bool)
  | SetShaderMaterial (materialTag : String)
  | SetShaderColor (r g b a : ℚ)
  | SetShaderTexture (textureTag : String)
  | SetTextureUVScale (u v : ℚ)
  | Draw (mesh : Mesh)
  | drawKeyRow (keyScale : vec3 ℚ) (startX spacingX startZ : ℚ) (keys : List String) (rowZ : ℚ)

namespace SceneManager

variable {M : Type}

/-- One `SceneCall`, dispatched to the method or statement it names. -/
def sceneCall (fl : ℚ → ℚ) (G : GLM ℚ M) (material : OBJECT_MATERIAL ℚ)
    (s : SceneManager ℚ M) : SceneCall → Except Fault (SceneManager ℚ M)
  | .SetTransformations scaleXYZ X Y Z positionXYZ =>
    SetTransformations G s scaleXYZ X Y Z positionXYZ
  | .setUseLighting b => setUseLighting s b
  | .SetShaderMaterial materialTag => SetShaderMaterial s materialTag material
  | .SetShaderColor r g b a => SetShaderColor s r g b a
  | .SetShaderTexture textureTag => SetShaderTexture s textureTag
  | .SetTextureUVScale u v => SetTextureUVScale s u v
  | .Draw mesh => pure (Draw s mesh)
  | .drawKeyRow keyScale startX spacingX startZ keys rowZ =>
    drawKeyRow fl G keyScale startX spacingX startZ s keys rowZ

/-- A sequence of `SceneCall`s, run in order. -/
def sceneCalls (fl : ℚ → ℚ) (G : GLM ℚ M) (material : OBJECT_MATERIAL ℚ)
    (s : SceneManager ℚ M) (calls : List SceneCall) : Except Fault (SceneManager ℚ M) :=
  calls.foldlM (sceneCall fl G material) s

/-- The statements of `RenderScene` as a list, in source order. -/
def RenderScene.calls (fl : ℚ → ℚ) : List SceneCall :=
  [ .SetTransformations ⟨fl 20, fl 1, fl 15⟩ (fl 0) (fl 0) (fl 0) ⟨fl 0, fl 0, fl 0⟩,
    .setUseLighting true,
    .SetShaderMaterial "default",
    .SetShaderTexture "desk",
    .SetTextureUVScale (fl 1) (fl 1),
    .Draw .plane,
    .SetTransformations ⟨fl 20, fl 1, fl 15⟩ (fl 90) (fl 0) (fl 0) ⟨fl 0, fl 15, -fl 15⟩,
    .SetShaderTexture "wall",
    .SetTextureUVScale (fl 1) (fl 1),
    .Draw .plane,
    .SetTransformations ⟨fl 1, fl 2, fl 1⟩ (fl 0) (fl 0) (fl 0) ⟨-fl (15 / 2), fl 0, fl 0⟩,
    .SetShaderTexture "matteBlack",
    .SetTextureUVScale (fl 1) (fl 1),
    .Draw .cylinder,
    .SetTransformations ⟨fl (9 / 10), fl (9 / 5), fl (9 / 10)⟩ (fl 0) (fl 0) (fl 0)
      ⟨-fl (15 / 2), fl (21 / 100), fl 0⟩,
    .SetShaderColor (fl 1) (fl 0) (fl 0) (fl 1),
    .Draw .cylinder,
    .SetTransformations ⟨fl (4 / 5), fl (17 / 10), fl (4 / 5)⟩ (fl 0) (fl 0) (fl 0)
      ⟨-fl (15 / 2), fl (8 / 25), fl 0⟩,
    .setUseLighting false,
    .SetShaderTexture "foam",
    .SetTextureUVScale (fl 1) (fl 1),
    .Draw .cylinder,
    .SetTransformations ⟨fl (4 / 5), fl (4 / 5), fl (4 / 5)⟩ (fl 0) (fl 0) (fl 0)
      ⟨-fl (17 / 2), fl 1, fl 0⟩,
    .SetShaderTexture "matteBlack",
    .SetTextureUVScale (fl 1) (fl 1),
    .Draw .torus,
    .SetTransformations ⟨fl 10, fl (1 / 2), fl 4⟩ (fl 0) (fl 0) (fl 0) ⟨fl 0, fl (1 / 4), fl 3⟩,
    .SetShaderTexture "matteBlack",
    .SetTextureUVScale (fl 1) (fl 1),
    .Draw .box,
    .drawKeyRow ⟨fl (4 / 5), fl (1 / 5), fl (4 / 5)⟩ (-fl (9 / 2)) (fl 1) (fl 1) row3 (fl 3),
    .drawKeyRow ⟨fl (4 / 5), fl (1 / 5), fl (4 / 5)⟩ (-fl (9 / 2)) (fl 1) (fl 1) row2 (fl 2),
    .drawKeyRow ⟨fl (4 / 5), fl (1 / 5), fl (4 / 5)⟩ (-fl (9 / 2)) (fl 1) (fl 1) row1 (fl 1),
    .SetTransformations ⟨fl 2, fl 5, fl 2⟩ (fl 0) (fl 0) (fl 0) ⟨fl 8, fl (5 / 2), fl 0⟩,
    .SetShaderTexture "pyramid",
    .SetTextureUVScale (fl 1) (fl 1),
    .Draw .pyramid4,
    .SetTransformations ⟨fl 3, fl (1 / 2), fl 3⟩ (fl 0) (fl 0) (fl 0) ⟨fl 0, fl (1 / 2), -fl 4⟩,
    .SetShaderTexture "matteBlack",
    .SetTextureUVScale (fl 1) (fl 1),
    .Draw .plane,
    .SetTransformations ⟨fl 1, fl 9, fl 1⟩ (fl 0) (fl 0) (fl 0) ⟨fl 0, fl 5, -fl 5⟩,
    .SetShaderTexture "matteBlack",
    .SetTextureUVScale (fl 1) (fl 1),
    .Draw .box,
    .SetTransformations ⟨fl 1, fl 1, fl 2⟩ (fl 0) (fl 0) (fl 0) ⟨fl 0, fl 8, -fl (9 / 2)⟩,
    .SetShaderTexture "matteBlack",
    .SetTextureUVScale (fl 1) (fl 1),
    .Draw .box,
    .SetTransformations ⟨fl 15, fl 10, fl 1⟩ (fl 0) (fl 0) (fl 0) ⟨fl 0, fl 8, -fl (7 / 2)⟩,
    .SetShaderTexture "matteBlack",
    .SetTextureUVScale (fl 1) (fl 1),
    .Draw .box,
    .SetTransformations ⟨fl 6, fl 1, fl 4⟩ (fl 90) (fl 0) (fl 0) ⟨fl 0, fl 8, -fl (29 / 10)⟩,
    .SetShaderTexture "screen",
    .Draw .plane ]

/-- What a draw record shows of the lighting: the mesh, and the value of
`bUseLighting` latched on the shader the draw was issued against. -/
def lightingAtDraw (d : Mesh × Option (ShaderManager ℚ M)) :
    Mesh × Option (UniformValue ℚ M) :=
  (d.1, d.2.bind (fun sh => sh.latched g_UseLightingName))

/-- The value of `bUseLighting` latched after one statement, from the value `v`
latched before it: only the lighting statement changes it. -/
def lightingAfter (v : Option (UniformValue ℚ M)) : SceneCall → Option (UniformValue ℚ M)
  | .setUseLighting b => some (.intValue (boolToInt b))
  | _ => v

/-- The draws one statement issues, each with the value `v` of `bUseLighting`
latched at that moment: one for a draw call, one box per key for a key row. -/
def drawsOfCall (v : Option (UniformValue ℚ M)) :
    SceneCall → List (Mesh × Option (UniformValue ℚ M))
  | .Draw mesh => [(mesh, v)]
  | .drawKeyRow _ _ _ _ keys _ => List.replicate keys.length (Mesh.box, v)
  | _ => []

/-- The draws a list of statements issues, each with the value of
`bUseLighting` latched by then, from the value `v` latched at the start. -/
def lightingTrace (v : Option (UniformValue ℚ M)) :
    List SceneCall → List (Mesh × Option (UniformValue ℚ M))
  | [] => []
  | c :: calls => drawsOfCall v c ++ lightingTrace (lightingAfter v c) calls

end SceneManager

namespace SceneManager

variable {M : Type}

/-- Method `SceneManager::SetupSceneLights`: eleven writes through
`m_pShaderManager`, with no test of the pointer. -/
def SetupSceneLights (fl : ℚ → ℚ) (s : SceneManager ℚ M) : Except Fault (SceneManager ℚ M) :=
  match s.m_pShaderManager with
  | none => .error .nullDereference
  | some sh =>
    let sh := sh.setBoolValue g_UseLightingName true
    let sh := sh.setBoolValue "directionalLight.bActive" true
    let sh := sh.setVec3Value "directionalLight.direction" ⟨-fl 5, -fl 10, -fl 5⟩
    let sh := sh.setVec3Value "directionalLight.ambient" ⟨fl (2 / 5), fl (2 / 5), fl (2 / 5)⟩
    let sh := sh.setVec3Value "directionalLight.diffuse" ⟨fl 1, fl 1, fl 1⟩
    let sh := sh.setVec3Value "directionalLight.specular" ⟨fl 1, fl 1, fl 1⟩
    let sh := sh.setBoolValue "pointLights[0].bActive" true
    let sh := sh.setVec3Value "pointLights[0].position" ⟨fl 10, fl 12, -fl 5⟩
    let sh := sh.setVec3Value "pointLights[0].ambient" ⟨fl (1 / 5), fl (3 / 20), fl (1 / 10)⟩
    let sh := sh.setVec3Value "pointLights[0].diffuse" ⟨fl (4 / 5), fl (3 / 5), fl (2 / 5)⟩
    let sh := sh.setVec3Value "pointLights[0].specular" ⟨fl 1, fl (9 / 10), fl (4 / 5)⟩
    .ok { s with m_pShaderManager := some sh }

/-- Method `SceneManager::PrepareScene`. The mesh loads and `BindGLTextures`
act on the collaborators only. `stbi_load` is what the decoder answers for
each file and `textureID` the name OpenGL hands out for it; the values the six
`CreateGLTexture` calls return are dropped, as in the source. -/
def PrepareScene (fl : ℚ → ℚ) (stbi_load : String → Option StbImage)
    (textureID : String → Nat) (s : SceneManager ℚ M) : Except Fault (SceneManager ℚ M) := do
  let (_, s) ← CreateGLTexture s (stbi_load "textures\\wood.jpg")
    (textureID "textures\\wood.jpg") "desk"
  let (_, s) ← CreateGLTexture s (stbi_load "textures\\whiteWall.jpg")
    (textureID "textures\\whiteWall.jpg") "wall"
  let (_, s) ← CreateGLTexture s (stbi_load "textures\\matteBlack.jpg")
    (textureID "textures\\matteBlack.jpg") "matteBlack"
  let (_, s) ← CreateGLTexture s (stbi_load "textures\\foam.jpg")
    (textureID "textures\\foam.jpg") "foam"
  let (_, s) ← CreateGLTexture s (stbi_load "textures\\pyramid.jpg")
    (textureID "textures\\pyramid.jpg") "pyramid"
  let (_, s) ← CreateGLTexture s (stbi_load "textures\\screen.jpg")
    (textureID "textures\\screen.jpg") "screen"
  let s := DefineObjectMaterials fl s
  SetupSceneLights fl s

end SceneManager

/-- The texture names OpenGL hands out for the six files of the scene, 1 to 6
in the order of the loads. -/
def sceneTextureID (filename : String) : Nat :=
  if filename = "textures\\wood.jpg" then 1
  else if filename = "textures\\whiteWall.jpg" then 2
  else if filename = "textures\\matteBlack.jpg" then 3
  else if filename = "textures\\foam.jpg" then 4
  else if filename = "textures\\pyramid.jpg" then 5
  else 6

/-- The scene manager after `PrepareScene`, from an empty manager with a
present shader and a texture array of 16 entries, when the decoder reads all
six files and OpenGL names the textures 1 to 6. -/
def preparedScene : SceneManager ℚ (Matrix (Fin 4) (Fin 4) ℚ) :=
  { m_pShaderManager := some
      { writes :=
          [("bUseLighting", .boolValue true),
           ("directionalLight.bActive", .boolValue true),
           ("directionalLight.direction", .vec3Value ⟨-5, -10, -5⟩),
           ("directionalLight.ambient", .vec3Value ⟨2 / 5, 2 / 5, 2 / 5⟩),
           ("directionalLight.diffuse", .vec3Value ⟨1, 1, 1⟩),
           ("directionalLight.specular", .vec3Value ⟨1, 1, 1⟩),
           ("pointLights[0].bActive", .boolValue true),
           ("pointLights[0].position", .vec3Value ⟨10, 12, -5⟩),
           ("pointLights[0].ambient", .vec3Value ⟨1 / 5, 3 / 20, 1 / 10⟩),
           ("pointLights[0].diffuse", .vec3Value ⟨4 / 5, 3 / 5, 2 / 5⟩),
           ("pointLights[0].specular", .vec3Value ⟨1, 9 / 10, 4 / 5⟩)] }
    m_basicMeshes := { draws := [] }
    m_textureIDs :=
      [⟨1, "desk"⟩, ⟨2, "wall"⟩, ⟨3, "matteBlack"⟩, ⟨4, "foam"⟩, ⟨5, "pyramid"⟩,
       ⟨6, "screen"⟩] ++ List.replicate 10 { ID := 0, tag := "" }
    m_loadedTextures := 6
    m_objectMaterials := [defaultMaterial, ceramicRed] }

/-- Modelled from the spec: the GLM primitives behind the Transform Encoder,
which "produces `M = T(p) · Rz · Ry · Rx · S(s)`" from a scale, "rotations in
degrees around the world X, Y, Z axes", "converted to radians internally", and
a translation. GLM is a library that is not among the sources; this is its
arithmetic over the real numbers, without the rounding of `float`: the matrix
product, the diagonal scale matrix, the rotation by an angle about the
normalised axis, the translation matrix, and the factor `π / 180`. -/
noncomputable def glmReal : GLM ℝ (Matrix (Fin 4) (Fin 4) ℝ) where
  mul := fun A B => A * B
  scale := fun v => !![v.x, 0, 0, 0; 0, v.y, 0, 0; 0, 0, v.z, 0; 0, 0, 0, 1]
  rotate := fun angle v =>
    let c := Real.cos angle
    let sn := Real.sin angle
    let n := Real.sqrt (v.x * v.x + v.y * v.y + v.z * v.z)
    let ax := v.x / n
    let ay := v.y / n
    let az := v.z / n
    let t := 1 - c
    !![c + t * ax * ax, t * ax * ay - sn * az, t * ax * az + sn * ay, 0;
       t * ax * ay + sn * az, c + t * ay * ay, t * ay * az - sn * ax, 0;
       t * ax * az - sn * ay, t * ay * az + sn * ax, c + t * az * az, 0;
       0, 0, 0, 1]
  translate := fun v => !![1, 0, 0, v.x; 0, 1, 0, v.y; 0, 0, 1, v.z; 0, 0, 0, 1]
  radians := fun degrees => degrees * (Real.pi / 180)

/-- What a draw record shows of the transform: the mesh, and the value of
`model` latched on the shader the draw was issued against. -/
def modelAtDraw {F M : Type} (d : Mesh × Option (ShaderManager F M)) :
    Mesh × Option (UniformValue F M) :=
  (d.1, d.2.bind (fun sh => sh.latched g_ModelName))

/-! ## Texture registry -/

namespace SceneManager

variable {F M : Type}

/-- From a start `d` records before the first record with the tag, the loop of
`FindTextureSlot` walks to that record and returns its index. -/
theorem FindTextureSlot_loop_hit (s : SceneManager F M) (tag : String) (i : Nat)
    (rec : TEXTURE_INFO) (hi : i < s.m_loadedTextures) (hrec : s.m_textureIDs[i]? = some rec)
    (htag : rec.tag = tag) :
    ∀ (d index : Nat) (slot : Int) (fuel : Nat), index + d = i →
      (∀ j r, index ≤ j → j < i → s.m_textureIDs[j]? = some r → r.tag ≠ tag) →
      d + 2 ≤ fuel → FindTextureSlot.loop s tag fuel index slot false = .ok (i : Int) := by
  intro d
  induction d with
  | zero =>
    intro index slot fuel hidx _ hfuel
    obtain ⟨f, rfl⟩ : ∃ f, fuel = f + 2 := ⟨fuel - 2, by omega⟩
    have hidx : index = i := by omega
    subst hidx
    simp [FindTextureSlot.loop, hi, hrec, htag]
  | succ d ih =>
    intro index slot fuel hidx hmiss hfuel
    obtain ⟨f, rfl⟩ : ∃ f, fuel = f + 1 := ⟨fuel - 1, by omega⟩
    have hlen : i < s.m_textureIDs.length := by
      rcases List.getElem?_eq_some.mp hrec with ⟨h, _⟩
      exact h
    have hin : index < s.m_textureIDs.length := by omega
    have hget : s.m_textureIDs[index]? = some (s.m_textureIDs[index]) :=
      List.getElem?_eq_getElem hin
    have hne : (s.m_textureIDs[index]).tag ≠ tag :=
      hmiss index _ (Nat.le_refl _) (by omega) hget
    have hlt : index < s.m_loadedTextures := by omega
    rw [FindTextureSlot.loop]
    simp only [hlt, hget, hne, and_self, if_true, if_false]
    exact ih (index + 1) slot f (by omega) (fun j r h1 h2 => hmiss j r (by omega) h2) (by omega)

/-- When no record from `index` on carries the tag, the loop of
`FindTextureSlot` runs off the end and returns the slot it started with. -/
theorem FindTextureSlot_loop_miss (s : SceneManager F M) (tag : String)
    (hwf : s.m_loadedTextures ≤ s.m_textureIDs.length) :
    ∀ (d index : Nat) (slot : Int) (fuel : Nat), index + d = s.m_loadedTextures →
      (∀ j r, index ≤ j → j < s.m_loadedTextures → s.m_textureIDs[j]? = some r → r.tag ≠ tag) →
      d + 1 ≤ fuel → FindTextureSlot.loop s tag fuel index slot false = .ok slot := by
  intro d
  induction d with
  | zero =>
    intro index slot fuel hidx _ hfuel
    obtain ⟨f, rfl⟩ : ∃ f, fuel = f + 1 := ⟨fuel - 1, by omega⟩
    have hnlt : ¬ index < s.m_loadedTextures := by omega
    simp [FindTextureSlot.loop, hnlt]
  | succ d ih =>
    intro index slot fuel hidx hmiss hfuel
    obtain ⟨f, rfl⟩ : ∃ f, fuel = f + 1 := ⟨fuel - 1, by omega⟩
    have hlt : index < s.m_loadedTextures := by omega
    have hin : index < s.m_textureIDs.length := by omega
    have hget : s.m_textureIDs[index]? = some (s.m_textureIDs[index]) :=
      List.getElem?_eq_getElem hin
    have hne : (s.m_textureIDs[index]).tag ≠ tag := hmiss index _ (Nat.le_refl _) hlt hget
    rw [FindTextureSlot.loop]
    simp only [hlt, hget, hne, and_self, if_true, if_false]
    exact ih (index + 1) slot f (by omega) (fun j r h1 h2 => hmiss j r (by omega) h2) (by omega)

/-- From a start `d` records before the first record with the tag, the loop of
`FindTextureID` walks to that record and returns its `ID`, converted to
`int`. -/
theorem FindTextureID_loop_hit (s : SceneManager F M) (tag : String) (i : Nat)
    (rec : TEXTURE_INFO) (hi : i < s.m_loadedTextures) (hrec : s.m_textureIDs[i]? = some rec)
    (htag : rec.tag = tag) :
    ∀ (d index : Nat) (textureID : Int) (fuel : Nat), index + d = i →
      (∀ j r, index ≤ j → j < i → s.m_textureIDs[j]? = some r → r.tag ≠ tag) →
      d + 2 ≤ fuel →
      FindTextureID.loop s tag fuel index textureID false = .ok (GLuintToInt rec.ID) := by
  intro d
  induction d with
  | zero =>
    intro index textureID fuel hidx _ hfuel
    obtain ⟨f, rfl⟩ : ∃ f, fuel = f + 2 := ⟨fuel - 2, by omega⟩
    have hidx : index = i := by omega
    subst hidx
    simp [FindTextureID.loop, hi, hrec, htag]
  | succ d ih =>
    intro index textureID fuel hidx hmiss hfuel
    obtain ⟨f, rfl⟩ : ∃ f, fuel = f + 1 := ⟨fuel - 1, by omega⟩
    have hlen : i < s.m_textureIDs.length := by
      rcases List.getElem?_eq_some.mp hrec with ⟨h, _⟩
      exact h
    have hin : index < s.m_textureIDs.length := by omega
    have hget : s.m_textureIDs[index]? = some (s.m_textureIDs[index]) :=
      List.getElem?_eq_getElem hin
    have hne : (s.m_textureIDs[index]).tag ≠ tag :=
      hmiss index _ (Nat.le_refl _) (by omega) hget
    have hlt : index < s.m_loadedTextures := by omega
    rw [FindTextureID.loop]
    simp only [hlt, hget, hne, and_self, if_true, if_false]
    exact ih (index + 1) textureID f (by omega) (fun j r h1 h2 => hmiss j r (by omega) h2)
      (by omega)

/-- When no record from `index` on carries the tag, the loop of `FindTextureID`
runs off the end and returns the value it started with. -/
theorem FindTextureID_loop_miss (s : SceneManager F M) (tag : String)
    (hwf : s.m_loadedTextures ≤ s.m_textureIDs.length) :
    ∀ (d index : Nat) (textureID : Int) (fuel : Nat), index + d = s.m_loadedTextures →
      (∀ j r, index ≤ j → j < s.m_loadedTextures → s.m_textureIDs[j]? = some r → r.tag ≠ tag) →
      d + 1 ≤ fuel → FindTextureID.loop s tag fuel index textureID false = .ok textureID := by
  intro d
  induction d with
  | zero =>
    intro index textureID fuel hidx _ hfuel
    obtain ⟨f, rfl⟩ : ∃ f, fuel = f + 1 := ⟨fuel - 1, by omega⟩
    have hnlt : ¬ index < s.m_loadedTextures := by omega
    simp [FindTextureID.loop, hnlt]
  | succ d ih =>
    intro index textureID fuel hidx hmiss hfuel
    obtain ⟨f, rfl⟩ : ∃ f, fuel = f + 1 := ⟨fuel - 1, by omega⟩
    have hlt : index < s.m_loadedTextures := by omega
    have hin : index < s.m_textureIDs.length := by omega
    have hget : s.m_textureIDs[index]? = some (s.m_textureIDs[index]) :=
      List.getElem?_eq_getElem hin
    have hne : (s.m_textureIDs[index]).tag ≠ tag := hmiss index _ (Nat.le_refl _) hlt hget
    rw [FindTextureID.loop]
    simp only [hlt, hget, hne, and_self, if_true, if_false]
    exact ih (index + 1) textureID f (by omega) (fun j r h1 h2 => hmiss j r (by omega) h2)
      (by omega)

/-- The slot of the first record with the tag, as a hit of `FindTextureSlot`. -/
theorem FindTextureSlot_hit (s : SceneManager F M) (tag : String) (i : Nat)
    (rec : TEXTURE_INFO) (hi : i < s.m_loadedTextures) (hrec : s.m_textureIDs[i]? = some rec)
    (htag : rec.tag = tag)
    (hfirst : ∀ j r, j < i → s.m_textureIDs[j]? = some r → r.tag ≠ tag) :
    FindTextureSlot s tag = .ok (i : Int) :=
  FindTextureSlot_loop_hit s tag i rec hi hrec htag i 0 (-1) _ (by omega)
    (fun j r _ h2 => hfirst j r h2) (by omega)

/-- A tag no record carries makes `FindTextureSlot` return its sentinel. -/
theorem FindTextureSlot_miss (s : SceneManager F M) (tag : String)
    (hwf : s.m_loadedTextures ≤ s.m_textureIDs.length)
    (hmiss : ∀ j r, j < s.m_loadedTextures → s.m_textureIDs[j]? = some r → r.tag ≠ tag) :
    FindTextureSlot s tag = .ok (-1) :=
  FindTextureSlot_loop_miss s tag hwf s.m_loadedTextures 0 (-1) _ (by omega)
    (fun j r _ h2 => hmiss j r h2) (by omega)

/-- The conversion of a `GLuint` to `int` keeps a texture name below `2 ^ 31`. -/
theorem GLuintToInt_small (id : Nat) (h : id < 2 ^ 31) : GLuintToInt id = (id : Int) := by
  have h1 : id % 2 ^ 32 = id := Nat.mod_eq_of_lt (by omega)
  unfold GLuintToInt
  rw [h1, if_pos h]

/-- C1, amended. In every texture registry whose records `0 .. n-1` exist, and
for every tag: when record `i` is the first one whose tag equals the tag,
`FindTextureSlot` returns `i` and `FindTextureID` returns the `ID` of that
record converted from `GLuint` to `int`, which is the `ID` itself when it is
below `2 ^ 31`; when no record carries the tag, both return `-1`. -/
theorem FindTexture_first_match_or_sentinel (s : SceneManager F M) (tag : String)
    (hwf : s.m_loadedTextures ≤ s.m_textureIDs.length) :
    (∀ (i : Nat) (rec : TEXTURE_INFO), i < s.m_loadedTextures →
        s.m_textureIDs[i]? = some rec → rec.tag = tag →
        (∀ j r, j < i → s.m_textureIDs[j]? = some r → r.tag ≠ tag) →
        FindTextureSlot s tag = .ok (i : Int) ∧
          FindTextureID s tag = .ok (GLuintToInt rec.ID) ∧
          (rec.ID < 2 ^ 31 → FindTextureID s tag = .ok (rec.ID : Int))) ∧
    ((∀ j r, j < s.m_loadedTextures → s.m_textureIDs[j]? = some r → r.tag ≠ tag) →
        FindTextureSlot s tag = .ok (-1) ∧ FindTextureID s tag = .ok (-1)) := by
  refine ⟨fun i rec hi hrec htag hfirst => ?_, fun hmiss => ⟨?_, ?_⟩⟩
  · have hid : FindTextureID s tag = .ok (GLuintToInt rec.ID) :=
      FindTextureID_loop_hit s tag i rec hi hrec htag i 0 (-1) _ (by omega)
        (fun j r _ h2 => hfirst j r h2) (by omega)
    refine ⟨FindTextureSlot_hit s tag i rec hi hrec htag hfirst, hid, fun hsmall => ?_⟩
    rw [hid, GLuintToInt_small rec.ID hsmall]
  · exact FindTextureSlot_miss s tag hwf hmiss
  · exact FindTextureID_loop_miss s tag hwf s.m_loadedTextures 0 (-1) _ (by omega)
      (fun j r _ h2 => hmiss j r h2) (by omega)

/-- A call of `CreateGLTexture` that returns `true` found a free entry in the
array and wrote the new record there. -/
theorem CreateGLTexture_true (s s1 : SceneManager F M) (image : Option StbImage)
    (textureID : Nat) (tag : String)
    (h : CreateGLTexture s image textureID tag = .ok (true, s1)) :
    s.m_loadedTextures < s.m_textureIDs.length ∧
      s1 = { s with
        m_textureIDs := s.m_textureIDs.set s.m_loadedTextures { ID := textureID, tag := tag }
        m_loadedTextures := s.m_loadedTextures + 1 } := by
  unfold CreateGLTexture at h
  cases image with
  | none => simp at h
  | some img =>
    simp only at h
    split_ifs at h with h1 h2
    · simp only [Except.ok.injEq, Prod.mk.injEq, true_and] at h
      exact ⟨h2, h.symm⟩
    · simp at h

/-- A call of `CreateGLTexture` that returns `false` leaves the state alone. -/
theorem CreateGLTexture_false (s s1 : SceneManager F M) (image : Option StbImage)
    (textureID : Nat) (tag : String)
    (h : CreateGLTexture s image textureID tag = .ok (false, s1)) : s1 = s := by
  unfold CreateGLTexture at h
  cases image with
  | none =>
    simp only [Except.ok.injEq, Prod.mk.injEq, true_and] at h
    exact h.symm
  | some img =>
    simp only at h
    split_ifs at h with h1 h2
    · simp at h
    · simp only [Except.ok.injEq, Prod.mk.injEq, true_and] at h
      exact h.symm

/-- Writing entry `n` of an array and counting it in appends the record to the
registered ones. -/
theorem take_succ_set (l : List TEXTURE_INFO) (n : Nat) (r : TEXTURE_INFO)
    (h : n < l.length) : (l.set n r).take (n + 1) = l.take n ++ [r] := by
  induction l generalizing n with
  | nil => simp at h
  | cons a l ih =>
    cases n with
    | zero => simp
    | succ n =>
      simp only [List.length_cons, Nat.add_lt_add_iff_right] at h
      simp [ih n h]

/-- What a run of `CreateGLTexture` calls does to the registry: the records of
the calls that returned `true` are appended, in order, and the count stays
within the array. -/
theorem CreateGLTextures_loadedRecords (calls : List LoadCall) :
    ∀ (s s1 : SceneManager F M) (rs : List Bool),
      s.m_loadedTextures ≤ s.m_textureIDs.length →
      CreateGLTextures s calls = .ok (rs, s1) →
      loadedRecords s1 = loadedRecords s ++
          ((calls.zip rs).filter (fun p => p.2)).map
            (fun p => ({ ID := p.1.textureID, tag := p.1.tag } : TEXTURE_INFO)) ∧
        s1.m_loadedTextures ≤ s1.m_textureIDs.length ∧
        s1.m_loadedTextures = s.m_loadedTextures + rs.count true := by
  induction calls with
  | nil =>
    intro s s1 rs hwf h
    simp only [CreateGLTextures, Except.ok.injEq, Prod.mk.injEq] at h
    obtain ⟨rfl, rfl⟩ := h
    simp [hwf]
  | cons c cs ih =>
    intro s s1 rs hwf h
    rw [CreateGLTextures] at h
    cases hc : CreateGLTexture s c.image c.textureID c.tag with
    | error e => simp [hc] at h
    | ok p =>
      obtain ⟨b, s2⟩ := p
      simp only [hc] at h
      cases hr : CreateGLTextures s2 cs with
      | error e => simp [hr] at h
      | ok q =>
        obtain ⟨bs, s3⟩ := q
        simp only [hr, Except.ok.injEq, Prod.mk.injEq] at h
        obtain ⟨rfl, rfl⟩ := h
        cases b with
        | false =>
          have := CreateGLTexture_false s s2 _ _ _ hc
          subst this
          obtain ⟨h1, h2, h3⟩ := ih s2 s3 bs hwf hr
          refine ⟨?_, h2, ?_⟩
          · simpa using h1
          · simpa using h3
        | true =>
          obtain ⟨hlt, hs2⟩ := CreateGLTexture_true s s2 _ _ _ hc
          have hwf2 : s2.m_loadedTextures ≤ s2.m_textureIDs.length := by
            subst hs2
            simp only [List.length_set]
            omega
          have hl2 : loadedRecords s2 =
              loadedRecords s ++ [{ ID := c.textureID, tag := c.tag }] := by
            subst hs2
            exact take_succ_set _ _ _ hlt
          obtain ⟨h1, h2, h3⟩ := ih s2 s3 bs hwf2 hr
          refine ⟨?_, h2, ?_⟩
          · rw [h1, hl2]
            simp
          · rw [h3, hs2]
            simp only [List.count_cons_self]
            omega

/-- The lookup reads the registered records only: when they are `A ++ r :: B`
with `r` the first record carrying the tag, the slot is the length of `A`. -/
theorem FindTextureSlot_of_loadedRecords (s : SceneManager F M) (tag : String)
    (A B : List TEXTURE_INFO) (r : TEXTURE_INFO) (hl : loadedRecords s = A ++ r :: B)
    (hr : r.tag = tag) (hA : ∀ a ∈ A, a.tag ≠ tag) :
    FindTextureSlot s tag = .ok (A.length : Int) := by
  have hlen : A.length < (loadedRecords s).length := by
    rw [hl]
    simp
  have hlen2 : A.length < s.m_loadedTextures ∧ A.length < s.m_textureIDs.length := by
    unfold loadedRecords at hlen
    simp only [List.length_take] at hlen
    omega
  have hget : ∀ j, j < s.m_loadedTextures → s.m_textureIDs[j]? = (A ++ r :: B)[j]? := by
    intro j hj
    rw [← hl]
    unfold loadedRecords
    rw [List.getElem?_take_of_lt hj]
  apply FindTextureSlot_hit s tag A.length r hlen2.1
  · rw [hget _ hlen2.1, List.getElem?_append_right (Nat.le_refl _)]
    simp
  · exact hr
  · intro j r1 hj hr1
    rw [hget j (by omega), List.getElem?_append_left hj] at hr1
    exact hA r1 (List.getElem?_mem hr1)

/-- C2, amended. From a registry with no texture loaded, run any calls `pre`,
then a call `c` that returns `true`, then any calls `post`. If no call of
`pre` that returned `true` used the tag of `c`, then `c` is successful load
number `k`, with `k` the number of calls of `pre` that returned `true`, and
`FindTextureSlot` of its tag is `k` right after the call and stays `k` after
`post`: later loads of the tag never shadow the first one. -/
theorem CreateGLTexture_slot_identity (s0 s1 s2 s3 : SceneManager F M)
    (pre post : List LoadCall) (c : LoadCall) (rs1 rs3 : List Bool)
    (h0 : s0.m_loadedTextures = 0)
    (hpre : CreateGLTextures s0 pre = .ok (rs1, s1))
    (hc : CreateGLTexture s1 c.image c.textureID c.tag = .ok (true, s2))
    (hpost : CreateGLTextures s2 post = .ok (rs3, s3))
    (hfresh : ∀ p ∈ pre.zip rs1, p.2 = true → p.1.tag ≠ c.tag) :
    s1.m_loadedTextures = rs1.count true ∧
      FindTextureSlot s2 c.tag = .ok (rs1.count true : Int) ∧
      FindTextureSlot s3 c.tag = .ok (rs1.count true : Int) := by
  obtain ⟨hl1, hwf1, hn1⟩ := CreateGLTextures_loadedRecords pre s0 s1 rs1 (by omega) hpre
  obtain ⟨hlt, hs2⟩ := CreateGLTexture_true s1 s2 _ _ _ hc
  have hwf2 : s2.m_loadedTextures ≤ s2.m_textureIDs.length := by
    subst hs2
    simp only [List.length_set]
    omega
  have hl2 : loadedRecords s2 = loadedRecords s1 ++ [{ ID := c.textureID, tag := c.tag }] := by
    subst hs2
    exact take_succ_set _ _ _ hlt
  obtain ⟨hl3, -, -⟩ := CreateGLTextures_loadedRecords post s2 s3 rs3 hwf2 hpost
  have hlen1 : (loadedRecords s1).length = rs1.count true := by
    unfold loadedRecords
    simp only [List.length_take]
    omega
  have hA : ∀ a ∈ loadedRecords s1, a.tag ≠ c.tag := by
    intro a ha
    have h00 : loadedRecords s0 = [] := by simp [loadedRecords, h0]
    rw [hl1, h00] at ha
    simp only [List.nil_append, List.mem_map, List.mem_filter] at ha
    obtain ⟨p, ⟨hp, hp2⟩, rfl⟩ := ha
    exact hfresh p hp hp2
  refine ⟨by omega, ?_, ?_⟩
  · have := FindTextureSlot_of_loadedRecords s2 c.tag (loadedRecords s1) []
      { ID := c.textureID, tag := c.tag } hl2 rfl hA
    rw [this, hlen1]
  · have := FindTextureSlot_of_loadedRecords s3 c.tag (loadedRecords s1) _
      { ID := c.textureID, tag := c.tag } (by rw [hl3, hl2, List.append_assoc]; rfl) rfl hA
    rw [this, hlen1]


/-- C1, amended, at a registry of three records in an array of four: tag `"a"`
sits in records 0 and 2 and is found in slot 0 with the `ID` of record 0, the
texture name 4294967290 of tag `"b"` comes back as `-6`, and a tag no record
carries gives `-1` twice. -/
theorem FindTexture_first_match_or_sentinel_witness :
    FindTextureSlot
        (withTextures none [⟨7, "a"⟩, ⟨4294967290, "b"⟩, ⟨9, "a"⟩] 4 : SceneManager ℚ Unit)
        "a" = .ok 0 ∧
      FindTextureID
        (withTextures none [⟨7, "a"⟩, ⟨4294967290, "b"⟩, ⟨9, "a"⟩] 4 : SceneManager ℚ Unit)
        "a" = .ok 7 ∧
      FindTextureSlot
        (withTextures none [⟨7, "a"⟩, ⟨4294967290, "b"⟩, ⟨9, "a"⟩] 4 : SceneManager ℚ Unit)
        "b" = .ok 1 ∧
      FindTextureID
        (withTextures none [⟨7, "a"⟩, ⟨4294967290, "b"⟩, ⟨9, "a"⟩] 4 : SceneManager ℚ Unit)
        "b" = .ok (-6) ∧
      FindTextureSlot
        (withTextures none [⟨7, "a"⟩, ⟨4294967290, "b"⟩, ⟨9, "a"⟩] 4 : SceneManager ℚ Unit)
        "d" = .ok (-1) ∧
      FindTextureID
        (withTextures none [⟨7, "a"⟩, ⟨4294967290, "b"⟩, ⟨9, "a"⟩] 4 : SceneManager ℚ Unit)
        "d" = .ok (-1) := by
  have h := FindTexture_first_match_or_sentinel
    (withTextures none [⟨7, "a"⟩, ⟨4294967290, "b"⟩, ⟨9, "a"⟩] 4 : SceneManager ℚ Unit)
  have ha := (h "a" (by decide)).1 0 ⟨7, "a"⟩ (by decide) (by decide) (by decide)
    (fun j r hj => absurd hj (Nat.not_lt_zero j))
  have hb := (h "b" (by decide)).1 1 ⟨4294967290, "b"⟩ (by decide) (by decide) (by decide)
    (by
      intro j r hj hr
      have hj0 : j = 0 := by omega
      subst hj0
      simp [withTextures] at hr
      subst hr
      decide)
  have hd := (h "d" (by decide)).2 (by
    intro j r hj hr
    have hj3 : j < 3 := hj
    interval_cases j <;> simp [withTextures] at hr <;> subst hr <;> decide)
  exact ⟨ha.1, ha.2.2 (by decide), hb.1, hb.2.1.trans (by decide), hd.1, hd.2⟩

/-- C1 as stated fails: a registry whose one record has the tag `"a"` and the
texture name 4294967295. `FindTextureID("a")` does not return that name: the
conversion to `int` makes it `-1`, the value returned when nothing is found. -/
theorem FindTextureID_as_stated_fails :
    ¬ (∀ (s : SceneManager ℚ Unit) (tag : String) (i : Nat) (rec : TEXTURE_INFO),
        s.m_loadedTextures ≤ s.m_textureIDs.length → i < s.m_loadedTextures →
        s.m_textureIDs[i]? = some rec → rec.tag = tag →
        (∀ j r, j < i → s.m_textureIDs[j]? = some r → r.tag ≠ tag) →
        FindTextureID s tag = .ok (rec.ID : Int)) := by
  intro h
  have h1 := h (withTextures none [⟨4294967295, "a"⟩] 16) "a" 0 ⟨4294967295, "a"⟩
    (by decide) (by decide) (by decide) (by decide)
    (fun j r hj => absurd hj (Nat.not_lt_zero j))
  have h2 : FindTextureID (withTextures none [⟨4294967295, "a"⟩] 16 : SceneManager ℚ Unit) "a"
      = .ok (-1) := by decide
  rw [h2] at h1
  exact absurd (Except.ok.inj h1) (by decide)

/-- C2 as stated fails: load tag `"a"` twice into a fresh registry of 16
entries. The second call returns `true` and is successful load number 1, yet
`FindTextureSlot "a"` right after it is 0: the earlier entry shadows the later
one. -/
theorem CreateGLTexture_slot_identity_as_stated_fails :
    ¬ (∀ (s0 s1 s2 : SceneManager ℚ Unit) (pre : List LoadCall) (c : LoadCall)
        (rs1 : List Bool),
        s0.m_loadedTextures = 0 →
        CreateGLTextures s0 pre = .ok (rs1, s1) →
        CreateGLTexture s1 c.image c.textureID c.tag = .ok (true, s2) →
        FindTextureSlot s2 c.tag = .ok (rs1.count true : Int)) := by
  intro h
  have h1 := h (fresh none 16) (withTextures none [⟨1, "a"⟩] 16)
    (withTextures none [⟨1, "a"⟩, ⟨2, "a"⟩] 16) [⟨some rgbImage, 1, "a"⟩]
    ⟨some rgbImage, 2, "a"⟩ [true] (by decide) (by decide) (by decide)
  revert h1
  decide

/-- C2, amended, on the scenario of the spec: loading tags `"a"`, `"b"`, `"c"`
in that order into a fresh registry of 16 entries gives slots 0, 1, 2, each
right after its load and after the later loads, and `"d"` is not found. -/
theorem CreateGLTexture_slot_identity_witness :
    FindTextureSlot (withTextures none [⟨1, "a"⟩] 16 : SceneManager ℚ Unit) "a" = .ok 0 ∧
      FindTextureSlot
        (withTextures none [⟨1, "a"⟩, ⟨2, "b"⟩] 16 : SceneManager ℚ Unit) "b" = .ok 1 ∧
      FindTextureSlot
        (withTextures none [⟨1, "a"⟩, ⟨2, "b"⟩, ⟨3, "c"⟩] 16 : SceneManager ℚ Unit) "c"
          = .ok 2 ∧
      FindTextureSlot
        (withTextures none [⟨1, "a"⟩, ⟨2, "b"⟩, ⟨3, "c"⟩] 16 : SceneManager ℚ Unit) "a"
          = .ok 0 ∧
      FindTextureSlot
        (withTextures none [⟨1, "a"⟩, ⟨2, "b"⟩, ⟨3, "c"⟩] 16 : SceneManager ℚ Unit) "b"
          = .ok 1 ∧
      FindTextureSlot
        (withTextures none [⟨1, "a"⟩, ⟨2, "b"⟩, ⟨3, "c"⟩] 16 : SceneManager ℚ Unit) "d"
          = .ok (-1) := by
  have ha := CreateGLTexture_slot_identity (fresh none 16 : SceneManager ℚ Unit)
    (fresh none 16) (withTextures none [⟨1, "a"⟩] 16)
    (withTextures none [⟨1, "a"⟩, ⟨2, "b"⟩, ⟨3, "c"⟩] 16)
    [] [⟨some rgbaImage, 2, "b"⟩, ⟨some rgbImage, 3, "c"⟩] ⟨some rgbImage, 1, "a"⟩
    [] [true, true] (by decide) (by decide) (by decide) (by decide) (by decide)
  have hb := CreateGLTexture_slot_identity (fresh none 16 : SceneManager ℚ Unit)
    (withTextures none [⟨1, "a"⟩] 16) (withTextures none [⟨1, "a"⟩, ⟨2, "b"⟩] 16)
    (withTextures none [⟨1, "a"⟩, ⟨2, "b"⟩, ⟨3, "c"⟩] 16)
    [⟨some rgbImage, 1, "a"⟩] [⟨some rgbImage, 3, "c"⟩] ⟨some rgbaImage, 2, "b"⟩
    [true] [true] (by decide) (by decide) (by decide) (by decide) (by decide)
  have hc := CreateGLTexture_slot_identity (fresh none 16 : SceneManager ℚ Unit)
    (withTextures none [⟨1, "a"⟩, ⟨2, "b"⟩] 16)
    (withTextures none [⟨1, "a"⟩, ⟨2, "b"⟩, ⟨3, "c"⟩] 16)
    (withTextures none [⟨1, "a"⟩, ⟨2, "b"⟩, ⟨3, "c"⟩] 16)
    [⟨some rgbImage, 1, "a"⟩, ⟨some rgbaImage, 2, "b"⟩] [] ⟨some rgbImage, 3, "c"⟩
    [true, true] [] (by decide) (by decide) (by decide) (by decide) (by decide)
  exact ⟨ha.2.1, hb.2.1, hc.2.1, ha.2.2, hb.2.2, by decide⟩

/-- C3. For every registry state and every decoder outcome: when the decoder
cannot read the file, or reports a channel count other than 3 and 4,
`CreateGLTexture` returns `false` and the state (count and every record) is
the one before the call; when the decoder succeeds with 3 or 4 channels it
returns `true`, having written the record `{textureID, tag}` at index
`m_loadedTextures` and counted it in. The write is the one the capacity
contract of the registry allows: the entry `m_textureIDs[m_loadedTextures]`
is within the array. -/
theorem CreateGLTexture_decoder_outcome (s : SceneManager F M) (image : Option StbImage)
    (textureID : Nat) (tag : String) :
    (image = none → CreateGLTexture s image textureID tag = .ok (false, s)) ∧
    (∀ img, image = some img → img.colorChannels ≠ 3 → img.colorChannels ≠ 4 →
        CreateGLTexture s image textureID tag = .ok (false, s)) ∧
    (∀ img, image = some img → img.colorChannels = 3 ∨ img.colorChannels = 4 →
        s.m_loadedTextures < s.m_textureIDs.length →
        CreateGLTexture s image textureID tag = .ok (true,
          { s with
            m_textureIDs := s.m_textureIDs.set s.m_loadedTextures { ID := textureID, tag := tag }
            m_loadedTextures := s.m_loadedTextures + 1 })) := by
  refine ⟨?_, ?_, ?_⟩
  · rintro rfl
    rfl
  · rintro img rfl h3 h4
    simp [CreateGLTexture, h3, h4]
  · rintro img rfl hch hfree
    simp [CreateGLTexture, hch, hfree]

/-- C3 at concrete calls on a registry of 16 entries holding one texture: an
unreadable file and a single-channel image give `false` and the same state, an
RGBA image gives `true` and the second record. -/
theorem CreateGLTexture_decoder_outcome_witness :
    CreateGLTexture (withTextures none [⟨1, "a"⟩] 16 : SceneManager ℚ Unit) none 2 "b"
        = .ok (false, withTextures none [⟨1, "a"⟩] 16) ∧
      CreateGLTexture (withTextures none [⟨1, "a"⟩] 16 : SceneManager ℚ Unit)
        (some greyImage) 2 "b" = .ok (false, withTextures none [⟨1, "a"⟩] 16) ∧
      CreateGLTexture (withTextures none [⟨1, "a"⟩] 16 : SceneManager ℚ Unit)
        (some rgbaImage) 2 "b" = .ok (true, withTextures none [⟨1, "a"⟩, ⟨2, "b"⟩] 16) := by
  have hn := (CreateGLTexture_decoder_outcome
    (withTextures none [⟨1, "a"⟩] 16 : SceneManager ℚ Unit) none 2 "b").1 rfl
  have hg := (CreateGLTexture_decoder_outcome
    (withTextures none [⟨1, "a"⟩] 16 : SceneManager ℚ Unit) (some greyImage) 2 "b").2.1
    greyImage rfl (by decide) (by decide)
  have hs := (CreateGLTexture_decoder_outcome
    (withTextures none [⟨1, "a"⟩] 16 : SceneManager ℚ Unit) (some rgbaImage) 2 "b").2.2
    rgbaImage rfl (by decide) (by decide)
  exact ⟨hn, hg, hs.trans (by decide)⟩

end SceneManager

/-! ## Shader record -/

namespace ShaderManager

variable {F M : Type}

/-- After a write, the written name latches the new value and every other name
keeps its latched value. -/
theorem latched_publish (sh : ShaderManager F M) (n name : String) (v : UniformValue F M) :
    (sh.publish n v).latched name = if n = name then some v else sh.latched name := by
  unfold latched publish
  simp only [List.reverse_append, List.reverse_cons, List.reverse_nil, List.nil_append,
    List.singleton_append, List.find?_cons]
  by_cases h : n = name <;> simp [h]

end ShaderManager

/-! ## Material registry -/

namespace SceneManager

variable {F M : Type}

/-- From a start `d` records before the first record with the tag, the loop of
`FindMaterial` walks to that record and copies its three shading fields. -/
theorem FindMaterial_loop_hit (s : SceneManager F M) (tag : String) (i : Nat)
    (rec : OBJECT_MATERIAL F) (hrec : s.m_objectMaterials[i]? = some rec)
    (htag : rec.tag = tag) :
    ∀ (d index : Nat) (material : OBJECT_MATERIAL F) (fuel : Nat), index + d = i →
      (∀ j r, index ≤ j → j < i → s.m_objectMaterials[j]? = some r → r.tag ≠ tag) →
      d + 2 ≤ fuel →
      FindMaterial.loop s tag fuel index false material =
        .ok { material with
          diffuseColor := rec.diffuseColor
          specularColor := rec.specularColor
          shininess := rec.shininess } := by
  have hlen : i < s.m_objectMaterials.length := by
    rcases List.getElem?_eq_some.mp hrec with ⟨h, _⟩
    exact h
  intro d
  induction d with
  | zero =>
    intro index material fuel hidx _ hfuel
    obtain ⟨f, rfl⟩ : ∃ f, fuel = f + 2 := ⟨fuel - 2, by omega⟩
    have hidx : index = i := by omega
    subst hidx
    simp [FindMaterial.loop, hlen, hrec, htag]
  | succ d ih =>
    intro index material fuel hidx hmiss hfuel
    obtain ⟨f, rfl⟩ : ∃ f, fuel = f + 1 := ⟨fuel - 1, by omega⟩
    have hin : index < s.m_objectMaterials.length := by omega
    have hget : s.m_objectMaterials[index]? = some (s.m_objectMaterials[index]) :=
      List.getElem?_eq_getElem hin
    have hne : (s.m_objectMaterials[index]).tag ≠ tag :=
      hmiss index _ (Nat.le_refl _) (by omega) hget
    rw [FindMaterial.loop]
    simp only [hin, hget, hne, and_self, if_true, if_false]
    exact ih (index + 1) material f (by omega) (fun j r h1 h2 => hmiss j r (by omega) h2)
      (by omega)

/-- When no record from `index` on carries the tag, the loop of `FindMaterial`
runs off the end and leaves the out-parameter as it was. -/
theorem FindMaterial_loop_miss (s : SceneManager F M) (tag : String) :
    ∀ (d index : Nat) (material : OBJECT_MATERIAL F) (fuel : Nat),
      index + d = s.m_objectMaterials.length →
      (∀ j r, index ≤ j → s.m_objectMaterials[j]? = some r → r.tag ≠ tag) →
      d + 1 ≤ fuel → FindMaterial.loop s tag fuel index false material = .ok material := by
  intro d
  induction d with
  | zero =>
    intro index material fuel hidx _ hfuel
    obtain ⟨f, rfl⟩ : ∃ f, fuel = f + 1 := ⟨fuel - 1, by omega⟩
    have hnlt : ¬ index < s.m_objectMaterials.length := by omega
    simp [FindMaterial.loop, hnlt]
  | succ d ih =>
    intro index material fuel hidx hmiss hfuel
    obtain ⟨f, rfl⟩ : ∃ f, fuel = f + 1 := ⟨fuel - 1, by omega⟩
    have hin : index < s.m_objectMaterials.length := by omega
    have hget : s.m_objectMaterials[index]? = some (s.m_objectMaterials[index]) :=
      List.getElem?_eq_getElem hin
    have hne : (s.m_objectMaterials[index]).tag ≠ tag := hmiss index _ (Nat.le_refl _) hget
    rw [FindMaterial.loop]
    simp only [hin, hget, hne, and_self, if_true, if_false]
    exact ih (index + 1) material f (by omega) (fun j r h1 h2 => hmiss j r (by omega) h2)
      (by omega)

/-- On a hit `FindMaterial` returns `true` with the three shading fields of the
first record carrying the tag. -/
theorem FindMaterial_hit (s : SceneManager F M) (tag : String) (i : Nat)
    (rec material : OBJECT_MATERIAL F) (hrec : s.m_objectMaterials[i]? = some rec)
    (htag : rec.tag = tag)
    (hfirst : ∀ j r, j < i → s.m_objectMaterials[j]? = some r → r.tag ≠ tag) :
    FindMaterial s tag material =
      .ok (true, { material with
        diffuseColor := rec.diffuseColor
        specularColor := rec.specularColor
        shininess := rec.shininess }) := by
  have hlen : i < s.m_objectMaterials.length := by
    rcases List.getElem?_eq_some.mp hrec with ⟨h, _⟩
    exact h
  have hne : ¬ s.m_objectMaterials.length = 0 := by omega
  unfold FindMaterial
  rw [if_neg hne, FindMaterial_loop_hit s tag i rec hrec htag i 0 material _ (by omega)
    (fun j r _ h2 => hfirst j r h2) (by omega)]

/-- On a miss in a registry that is not empty `FindMaterial` still returns
`true`, with the out-parameter as the caller passed it in. -/
theorem FindMaterial_miss (s : SceneManager F M) (tag : String)
    (material : OBJECT_MATERIAL F) (hne : s.m_objectMaterials ≠ [])
    (hmiss : ∀ r ∈ s.m_objectMaterials, r.tag ≠ tag) :
    FindMaterial s tag material = .ok (true, material) := by
  have hlen : ¬ s.m_objectMaterials.length = 0 := by
    intro h
    exact hne (List.length_eq_zero.mp h)
  unfold FindMaterial
  rw [if_neg hlen, FindMaterial_loop_miss s tag s.m_objectMaterials.length 0 material _
    (by omega) (fun j r _ h2 => hmiss r (List.getElem?_mem h2)) (by omega)]

/-- On a miss in a registry that is not empty, `SetShaderMaterial` on a present
shader publishes the three material uniforms all the same, with whatever the
local `material` held. -/
theorem SetShaderMaterial_miss (s : SceneManager F M) (sh : ShaderManager F M)
    (tag : String) (material : OBJECT_MATERIAL F) (hsh : s.m_pShaderManager = some sh)
    (hne : s.m_objectMaterials ≠ []) (hmiss : ∀ r ∈ s.m_objectMaterials, r.tag ≠ tag) :
    SetShaderMaterial s tag material =
      .ok { s with
        m_pShaderManager :=
          some (((sh.setVec3Value "material.diffuseColor" material.diffuseColor).setVec3Value
            "material.specularColor" material.specularColor).setFloatValue
            "material.shininess" material.shininess) } := by
  have hlen : s.m_objectMaterials.length > 0 := by
    cases hm : s.m_objectMaterials with
    | nil => exact absurd hm hne
    | cons a l => simp
  unfold SetShaderMaterial
  rw [if_pos hlen, FindMaterial_miss s tag material hne hmiss]
  simp [hsh]

/-- C5. In a material registry with a record whose tag equals the requested
tag, `rec` being the first such record, `SetShaderMaterial` on a present shader
completes and adds exactly three writes to the shader record:
`material.diffuseColor`, `material.specularColor` and `material.shininess`,
with the values of `rec`. Those three uniforms latch the values of `rec` and
every other uniform keeps its latched value. -/
theorem SetShaderMaterial_hit (s : SceneManager F M) (sh : ShaderManager F M)
    (tag : String) (i : Nat) (rec material : OBJECT_MATERIAL F)
    (hsh : s.m_pShaderManager = some sh)
    (hrec : s.m_objectMaterials[i]? = some rec) (htag : rec.tag = tag)
    (hfirst : ∀ j r, j < i → s.m_objectMaterials[j]? = some r → r.tag ≠ tag) :
    ∃ sh1 : ShaderManager F M,
      SetShaderMaterial s tag material = .ok { s with m_pShaderManager := some sh1 } ∧
      sh1.writes = sh.writes ++
        [("material.diffuseColor", .vec3Value rec.diffuseColor),
         ("material.specularColor", .vec3Value rec.specularColor),
         ("material.shininess", .floatValue rec.shininess)] ∧
      sh1.latched "material.diffuseColor" = some (.vec3Value rec.diffuseColor) ∧
      sh1.latched "material.specularColor" = some (.vec3Value rec.specularColor) ∧
      sh1.latched "material.shininess" = some (.floatValue rec.shininess) ∧
      ∀ name, name ≠ "material.diffuseColor" → name ≠ "material.specularColor" →
        name ≠ "material.shininess" → sh1.latched name = sh.latched name := by
  have hlen : s.m_objectMaterials.length > 0 := by
    rcases List.getElem?_eq_some.mp hrec with ⟨h, _⟩
    omega
  refine ⟨((sh.setVec3Value "material.diffuseColor" rec.diffuseColor).setVec3Value
    "material.specularColor" rec.specularColor).setFloatValue
    "material.shininess" rec.shininess, ?_, ?_, ?_, ?_, ?_, ?_⟩
  · unfold SetShaderMaterial
    rw [if_pos hlen, FindMaterial_hit s tag i rec material hrec htag hfirst]
    simp [hsh]
  · simp [ShaderManager.setVec3Value, ShaderManager.setFloatValue, ShaderManager.publish]
  · simp only [ShaderManager.setVec3Value, ShaderManager.setFloatValue,
      ShaderManager.latched_publish]
    simp
  · simp only [ShaderManager.setVec3Value, ShaderManager.setFloatValue,
      ShaderManager.latched_publish]
    simp
  · simp only [ShaderManager.setVec3Value, ShaderManager.setFloatValue,
      ShaderManager.latched_publish]
    simp
  · intro name h1 h2 h3
    simp only [ShaderManager.setVec3Value, ShaderManager.setFloatValue,
      ShaderManager.latched_publish, if_neg (Ne.symm h1), if_neg (Ne.symm h2),
      if_neg (Ne.symm h3)]

end SceneManager

/-! ## Shader binding facade -/

namespace SceneManager

variable {F M : Type}

/-- Within a registry whose records `0 .. n-1` exist the loop of
`FindTextureSlot` always comes to an end within its budget. -/
theorem FindTextureSlot_loop_total (s : SceneManager F M) (tag : String)
    (hwf : s.m_loadedTextures ≤ s.m_textureIDs.length) :
    ∀ (d index : Nat) (slot : Int) (fuel : Nat), index + d = s.m_loadedTextures →
      d + 2 ≤ fuel → ∃ v, FindTextureSlot.loop s tag fuel index slot false = .ok v := by
  intro d
  induction d with
  | zero =>
    intro index slot fuel hidx hfuel
    obtain ⟨f, rfl⟩ : ∃ f, fuel = f + 1 := ⟨fuel - 1, by omega⟩
    have hnlt : ¬ index < s.m_loadedTextures := by omega
    exact ⟨slot, by simp [FindTextureSlot.loop, hnlt]⟩
  | succ d ih =>
    intro index slot fuel hidx hfuel
    obtain ⟨f, rfl⟩ : ∃ f, fuel = f + 2 := ⟨fuel - 2, by omega⟩
    have hlt : index < s.m_loadedTextures := by omega
    have hin : index < s.m_textureIDs.length := by omega
    have hget : s.m_textureIDs[index]? = some (s.m_textureIDs[index]) :=
      List.getElem?_eq_getElem hin
    by_cases htag : (s.m_textureIDs[index]).tag = tag
    · exact ⟨(index : Int), by simp [FindTextureSlot.loop, hlt, hget, htag]⟩
    · rw [FindTextureSlot.loop]
      simp only [hlt, hget, htag, and_self, if_true, if_false]
      exact ih (index + 1) slot (f + 1) (by omega) (by omega)

/-- Within a registry whose records `0 .. n-1` exist `FindTextureSlot` returns
a slot for every tag. -/
theorem FindTextureSlot_total (s : SceneManager F M) (tag : String)
    (hwf : s.m_loadedTextures ≤ s.m_textureIDs.length) :
    ∃ v, FindTextureSlot s tag = .ok v :=
  FindTextureSlot_loop_total s tag hwf s.m_loadedTextures 0 (-1) _ (by omega) (by omega)

/-- On a present shader and a registry whose records `0 .. n-1` exist,
`SetShaderTexture` completes with two writes: `bUseTexture = 1`, then
`objectTexture =` the slot the lookup returns. -/
theorem SetShaderTexture_present (s : SceneManager F M) (sh : ShaderManager F M)
    (tag : String) (hsh : s.m_pShaderManager = some sh)
    (hwf : s.m_loadedTextures ≤ s.m_textureIDs.length) :
    ∃ (slot : Int) (sh1 : ShaderManager F M),
      FindTextureSlot s tag = .ok slot ∧
      SetShaderTexture s tag = .ok { s with m_pShaderManager := some sh1 } ∧
      sh1.writes = sh.writes ++
        [(g_UseTextureName, .intValue 1), (g_TextureValueName, .sampler2DValue slot)] ∧
      sh1.latched g_TextureValueName = some (.sampler2DValue slot) ∧
      sh1.latched g_UseTextureName = some (.intValue 1) ∧
      ((∀ j r, j < s.m_loadedTextures → s.m_textureIDs[j]? = some r → r.tag ≠ tag) →
        slot = -1) := by
  obtain ⟨slot, hslot⟩ := FindTextureSlot_total s tag hwf
  refine ⟨slot, (sh.setIntValue g_UseTextureName (boolToInt true)).setSampler2DValue
    g_TextureValueName slot, hslot, ?_, ?_, ?_, ?_, ?_⟩
  · simp [SetShaderTexture, hsh, hslot]
  · simp [ShaderManager.setIntValue, ShaderManager.setSampler2DValue, ShaderManager.publish,
      boolToInt]
  · simp [ShaderManager.setIntValue, ShaderManager.setSampler2DValue,
      ShaderManager.latched_publish]
  · simp [ShaderManager.setIntValue, ShaderManager.setSampler2DValue,
      ShaderManager.latched_publish, boolToInt, g_TextureValueName, g_UseTextureName]
  · intro hmiss
    have := FindTextureSlot_miss s tag hwf hmiss
    rw [hslot] at this
    exact Except.ok.inj this

/-- C7. For every registry state whose records `0 .. n-1` exist and every tag,
`SetShaderTexture` on a present shader completes, having written
`bUseTexture = 1` and then `objectTexture =` the value `FindTextureSlot`
returns for the tag, unchanged; for a tag no record carries that value is the
sentinel `-1`. Both uniforms latch what was written. -/
theorem SetShaderTexture_forwards_slot (s : SceneManager F M) (sh : ShaderManager F M)
    (tag : String) (hsh : s.m_pShaderManager = some sh)
    (hwf : s.m_loadedTextures ≤ s.m_textureIDs.length) :
    ∃ (slot : Int) (sh1 : ShaderManager F M),
      FindTextureSlot s tag = .ok slot ∧
      SetShaderTexture s tag = .ok { s with m_pShaderManager := some sh1 } ∧
      sh1.writes = sh.writes ++
        [(g_UseTextureName, .intValue 1), (g_TextureValueName, .sampler2DValue slot)] ∧
      sh1.latched g_TextureValueName = some (.sampler2DValue slot) ∧
      sh1.latched g_UseTextureName = some (.intValue 1) ∧
      ((∀ j r, j < s.m_loadedTextures → s.m_textureIDs[j]? = some r → r.tag ≠ tag) →
        slot = -1) :=
  SetShaderTexture_present s sh tag hsh hwf


/-- What the last call of a sequence of colour and texture calls must have
latched: `bUseTexture = 1` after `SetShaderTexture`; `bUseTexture = 0` and the
colour passed in after `SetShaderColor`. -/
theorem shadingCall_latches (s : SceneManager F M) (sh : ShaderManager F M)
    (c : ShadingCall F) (hsh : s.m_pShaderManager = some sh)
    (hwf : s.m_loadedTextures ≤ s.m_textureIDs.length) :
    ∃ sh1 : ShaderManager F M,
      shadingCall s c = .ok { s with m_pShaderManager := some sh1 } ∧
      match c with
      | .SetShaderTexture _ => sh1.latched g_UseTextureName = some (.intValue 1)
      | .SetShaderColor r g b a =>
        sh1.latched g_UseTextureName = some (.intValue 0) ∧
          sh1.latched g_ColorValueName = some (.vec4Value ⟨r, g, b, a⟩) := by
  cases c with
  | SetShaderTexture tag =>
    obtain ⟨slot, sh1, -, h2, -, -, h5, -⟩ := SetShaderTexture_present s sh tag hsh hwf
    exact ⟨sh1, h2, h5⟩
  | SetShaderColor r g b a =>
    refine ⟨(sh.setIntValue g_UseTextureName (boolToInt false)).setVec4Value
      g_ColorValueName ⟨r, g, b, a⟩, ?_, ?_, ?_⟩
    · simp [shadingCall, SetShaderColor, hsh]
    · simp [ShaderManager.setIntValue, ShaderManager.setVec4Value,
        ShaderManager.latched_publish, boolToInt, g_ColorValueName, g_UseTextureName]
    · simp [ShaderManager.setIntValue, ShaderManager.setVec4Value,
        ShaderManager.latched_publish]

/-- A sequence of colour and texture calls on a present shader completes and
changes the shader record only. -/
theorem shadingCalls_ok (cs : List (ShadingCall F)) :
    ∀ (s : SceneManager F M) (sh : ShaderManager F M), s.m_pShaderManager = some sh →
      s.m_loadedTextures ≤ s.m_textureIDs.length →
      ∃ sh1 : ShaderManager F M,
        shadingCalls s cs = .ok { s with m_pShaderManager := some sh1 } := by
  induction cs with
  | nil =>
    intro s sh hsh _
    refine ⟨sh, ?_⟩
    rw [← hsh]
    rfl
  | cons c cs ih =>
    intro s sh hsh hwf
    obtain ⟨sh1, h1, -⟩ := shadingCall_latches s sh c hsh hwf
    obtain ⟨sh2, h2⟩ := ih { s with m_pShaderManager := some sh1 } sh1 rfl hwf
    exact ⟨sh2, by rw [shadingCalls, h1]; exact h2⟩

/-- Running a sequence followed by one more call is running the sequence and
then the call. -/
theorem shadingCalls_concat (cs : List (ShadingCall F)) (c : ShadingCall F) :
    ∀ s : SceneManager F M,
      shadingCalls s (cs ++ [c]) =
        match shadingCalls s cs with
        | .error e => .error e
        | .ok s1 => shadingCall s1 c := by
  induction cs with
  | nil =>
    intro s
    simp only [List.nil_append, shadingCalls]
    cases shadingCall s c <;> rfl
  | cons c1 cs ih =>
    intro s
    simp only [List.cons_append, shadingCalls]
    cases shadingCall s c1 with
    | error e => rfl
    | ok s1 => exact ih s1

/-- C6. Every finite sequence of `SetShaderColor` and `SetShaderTexture` calls
on a present shader, with `c` its last call, completes, changing the shader
record only, and afterwards the latched `bUseTexture` is 1 (true) if `c` is a
`SetShaderTexture` call and 0 (false) if `c` is `SetShaderColor(r,g,b,a)`, in
which case the latched `objectColor` is `(r,g,b,a)`. -/
theorem color_texture_last_call_wins (s : SceneManager F M) (sh : ShaderManager F M)
    (cs : List (ShadingCall F)) (c : ShadingCall F) (hsh : s.m_pShaderManager = some sh)
    (hwf : s.m_loadedTextures ≤ s.m_textureIDs.length) :
    ∃ sh1 : ShaderManager F M,
      shadingCalls s (cs ++ [c]) = .ok { s with m_pShaderManager := some sh1 } ∧
      match c with
      | .SetShaderTexture _ => sh1.latched g_UseTextureName = some (.intValue 1)
      | .SetShaderColor r g b a =>
        sh1.latched g_UseTextureName = some (.intValue 0) ∧
          sh1.latched g_ColorValueName = some (.vec4Value ⟨r, g, b, a⟩) := by
  obtain ⟨sh1, h1⟩ := shadingCalls_ok cs s sh hsh hwf
  obtain ⟨sh2, h2, h3⟩ :=
    shadingCall_latches { s with m_pShaderManager := some sh1 } sh1 c rfl hwf
  exact ⟨sh2, by rw [shadingCalls_concat, h1]; exact h2, h3⟩

/-- C6 on the scenario of the spec: `SetShaderTexture("t")` then
`SetShaderColor(1,0,0,1)` on a present shader ends with `bUseTexture = 0` and
`objectColor = (1,0,0,1)`. -/
theorem color_texture_last_call_wins_witness :
    ∃ sh1 : ShaderManager ℚ Unit,
      shadingCalls (fresh (some ⟨[]⟩) 16 : SceneManager ℚ Unit)
          [.SetShaderTexture "t", .SetShaderColor 1 0 0 1]
        = .ok { (fresh (some ⟨[]⟩) 16 : SceneManager ℚ Unit) with
            m_pShaderManager := some sh1 } ∧
      sh1.latched "bUseTexture" = some (.intValue 0) ∧
      sh1.latched "objectColor" = some (.vec4Value ⟨1, 0, 0, 1⟩) :=
  color_texture_last_call_wins (fresh (some ⟨[]⟩) 16 : SceneManager ℚ Unit) ⟨[]⟩
    [.SetShaderTexture "t"] (.SetShaderColor 1 0 0 1) rfl (by decide)

/-- C7 at a tag no record carries: on a registry holding `"a"` and `"b"`,
`SetShaderTexture("missing")` completes and the shader record ends with
`bUseTexture = 1`, `objectTexture = -1`. -/
theorem SetShaderTexture_forwards_slot_witness :
    ∃ sh1 : ShaderManager ℚ Unit,
      SetShaderTexture
          (withTextures (some ⟨[]⟩) [⟨1, "a"⟩, ⟨2, "b"⟩] 16 : SceneManager ℚ Unit) "missing"
        = .ok { (withTextures (some ⟨[]⟩) [⟨1, "a"⟩, ⟨2, "b"⟩] 16 : SceneManager ℚ Unit) with
            m_pShaderManager := some sh1 } ∧
      sh1.writes = [("bUseTexture", .intValue 1), ("objectTexture", .sampler2DValue (-1))] := by
  obtain ⟨slot, sh1, h1, h2, h3, -, -, -⟩ := SetShaderTexture_forwards_slot
    (withTextures (some ⟨[]⟩) [⟨1, "a"⟩, ⟨2, "b"⟩] 16 : SceneManager ℚ Unit) ⟨[]⟩ "missing"
    rfl (by decide)
  have hs : FindTextureSlot
      (withTextures (some ⟨[]⟩) [⟨1, "a"⟩, ⟨2, "b"⟩] 16 : SceneManager ℚ Unit) "missing"
      = .ok (-1) := by decide
  rw [hs] at h1
  have hslot : slot = -1 := (Except.ok.inj h1).symm
  subst hslot
  exact ⟨sh1, h2, h3⟩


/-- C8. For every scale, every rotation triple in degrees and every
translation, `SetTransformations` on a present shader completes with one write,
under the name `model`: the product, taken left to right, of
`translate(p)`, `rotate(radians Z, (0,0,1))`, `rotate(radians Y, (0,1,0))`,
`rotate(radians X, (1,0,0))` and `scale(s)`, which `model` then latches. When
GLM maps the scale `(1,1,1)`, the three rotations by `radians 0` and the
translation `(0,0,0)` to one matrix `I` with `I * I = I`, the matrix written
for these arguments is `I`. -/
theorem SetTransformations_model [Zero F] [One F] (G : GLM F M) (s : SceneManager F M)
    (sh : ShaderManager F M) (hsh : s.m_pShaderManager = some sh) :
    (∀ (scaleXYZ : vec3 F) (X Y Z : F) (positionXYZ : vec3 F),
      ∃ sh1 : ShaderManager F M,
        SetTransformations G s scaleXYZ X Y Z positionXYZ
          = .ok { s with m_pShaderManager := some sh1 } ∧
        sh1.writes = sh.writes ++ [("model", .mat4Value
          (G.mul (G.mul (G.mul (G.mul (G.translate positionXYZ)
            (G.rotate (G.radians Z) ⟨0, 0, 1⟩)) (G.rotate (G.radians Y) ⟨0, 1, 0⟩))
            (G.rotate (G.radians X) ⟨1, 0, 0⟩)) (G.scale scaleXYZ)))] ∧
        sh1.latched "model" = some (.mat4Value
          (G.mul (G.mul (G.mul (G.mul (G.translate positionXYZ)
            (G.rotate (G.radians Z) ⟨0, 0, 1⟩)) (G.rotate (G.radians Y) ⟨0, 1, 0⟩))
            (G.rotate (G.radians X) ⟨1, 0, 0⟩)) (G.scale scaleXYZ)))) ∧
    (∀ I : M, G.scale ⟨1, 1, 1⟩ = I → G.rotate (G.radians 0) ⟨1, 0, 0⟩ = I →
      G.rotate (G.radians 0) ⟨0, 1, 0⟩ = I → G.rotate (G.radians 0) ⟨0, 0, 1⟩ = I →
      G.translate ⟨0, 0, 0⟩ = I → G.mul I I = I →
      SetTransformations G s ⟨1, 1, 1⟩ 0 0 0 ⟨0, 0, 0⟩
        = .ok { s with m_pShaderManager := some (sh.setMat4Value "model" I) }) := by
  refine ⟨fun scaleXYZ X Y Z positionXYZ => ⟨sh.setMat4Value g_ModelName
      (G.mul (G.mul (G.mul (G.mul (G.translate positionXYZ)
        (G.rotate (G.radians Z) ⟨0, 0, 1⟩)) (G.rotate (G.radians Y) ⟨0, 1, 0⟩))
        (G.rotate (G.radians X) ⟨1, 0, 0⟩)) (G.scale scaleXYZ)), ?_, ?_, ?_⟩, ?_⟩
  · simp [SetTransformations, hsh]
  · simp [ShaderManager.setMat4Value, ShaderManager.publish, g_ModelName]
  · simp [ShaderManager.setMat4Value, ShaderManager.latched_publish, g_ModelName]
  · intro I hS hX hY hZ hT hI
    simp [SetTransformations, hsh, hS, hX, hY, hZ, hT, hI, g_ModelName]

end SceneManager

/-- With a cosine that is 1 and a sine that is 0 at the angle 0, the exact
instance maps the degenerate arguments to the identity matrix. -/
theorem glmExact_identity (c sn : ℚ → ℚ) (k : ℚ) (hc : c 0 = 1) (hs : sn 0 = 0) :
    (glmExact c sn k).scale ⟨1, 1, 1⟩ = 1 ∧
    (glmExact c sn k).rotate ((glmExact c sn k).radians 0) ⟨1, 0, 0⟩ = 1 ∧
    (glmExact c sn k).rotate ((glmExact c sn k).radians 0) ⟨0, 1, 0⟩ = 1 ∧
    (glmExact c sn k).rotate ((glmExact c sn k).radians 0) ⟨0, 0, 1⟩ = 1 ∧
    (glmExact c sn k).translate ⟨0, 0, 0⟩ = 1 := by
  refine ⟨?_, ?_, ?_, ?_, ?_⟩ <;>
    · ext i j
      fin_cases i <;> fin_cases j <;> simp [glmExact, hc, hs] <;> rfl

namespace SceneManager

/-- C8 at the degenerate transform of the spec, on the exact instance of GLM
with the polynomials `1 - x^2/2` and `x` for cosine and sine: scale `(1,1,1)`,
rotations `0,0,0` and position `(0,0,0)` publish the 4×4 identity as `model`. -/
theorem SetTransformations_model_witness :
    SetTransformations (glmExact (fun x => 1 - x ^ 2 / 2) (fun x => x) (3141593 / 180000000))
        (fresh (some ⟨[]⟩) 16) ⟨1, 1, 1⟩ 0 0 0 ⟨0, 0, 0⟩
      = .ok { (fresh (some ⟨[]⟩) 16 :
            SceneManager ℚ (Matrix (Fin 4) (Fin 4) ℚ)) with
          m_pShaderManager := some ⟨[("model", .mat4Value 1)]⟩ } := by
  have h := glmExact_identity (fun x => 1 - x ^ 2 / 2) (fun x => x) (3141593 / 180000000)
    (by norm_num) rfl
  exact (SetTransformations_model
    (glmExact (fun x => 1 - x ^ 2 / 2) (fun x => x) (3141593 / 180000000))
    (fresh (some ⟨[]⟩) 16) ⟨[]⟩ rfl).2 1 h.1 h.2.1 h.2.2.1 h.2.2.2.1 h.2.2.2.2 (one_mul 1)

end SceneManager

/-! ## Keyboard rows -/

/-- A half-integer of magnitude below `2 ^ 23` is a binary32 value. -/
theorem isBinary32_half (q : ℚ) (n : ℤ) (hq : q = (n : ℚ) / 2)
    (hn : -16777216 < n ∧ n < 16777216) : isBinary32 q := by
  refine ⟨n, -1, ?_, by norm_num, by norm_num, ?_⟩
  · rw [abs_lt]
    constructor <;> norm_num <;> omega
  · rw [hq, zpow_neg_one]
    ring

/-- For a row of at most ten keys the unsigned subtraction does not wrap. -/
theorem sizeTenMinus_le_ten (k : Nat) (hk : k ≤ 10) : sizeTenMinus k = 10 - k := by
  unfold sizeTenMinus
  have h1 : k % 2 ^ 64 = k := Nat.mod_eq_of_lt (by omega)
  rw [h1]
  omega

namespace SceneManager

variable {F M : Type}

/-- For a row of one to ten keys, with `startX = -4.5` and `spacingX = 1.0`
and a rounding that leaves binary32 values alone, the position computed for
key `i` is `(startX + (10 - k) * 0.5 + i * spacingX, 0.5, startZ + rowZ)`,
the first two coordinates without rounding error. -/
theorem drawKeyRow_keyPosition_exact (fl : ℚ → ℚ) (hfl : ∀ q, isBinary32 q → fl q = q)
    (keys : List String) (h10 : keys.length ≤ 10) (startZ rowZ : ℚ) (i : Nat)
    (hi : i < keys.length) :
    drawKeyRow.keyPosition fl (-9 / 2) 1 startZ keys rowZ i
      = ⟨-9 / 2 + (10 - (keys.length : ℚ)) * (1 / 2) + (i : ℚ) * 1, 1 / 2,
          fl (startZ + rowZ)⟩ := by
  have hsub : ((sizeTenMinus keys.length : ℕ) : ℚ) = 10 - (keys.length : ℚ) := by
    rw [sizeTenMinus_le_ten _ h10, Nat.cast_sub h10]
    norm_num
  have e1 : fl (10 - (keys.length : ℚ)) = 10 - (keys.length : ℚ) :=
    hfl _ (isBinary32_half _ (2 * (10 - (keys.length : ℤ))) (by push_cast; ring)
      ⟨by omega, by omega⟩)
  have e2 : fl (1 / 2) = 1 / 2 :=
    hfl _ (isBinary32_half _ 1 (by norm_num) ⟨by omega, by omega⟩)
  have e3 : fl ((10 - (keys.length : ℚ)) * (1 / 2)) = (10 - (keys.length : ℚ)) * (1 / 2) :=
    hfl _ (isBinary32_half _ (10 - (keys.length : ℤ)) (by push_cast; ring)
      ⟨by omega, by omega⟩)
  have e4 : fl (-9 / 2 + (10 - (keys.length : ℚ)) * (1 / 2))
      = -9 / 2 + (10 - (keys.length : ℚ)) * (1 / 2) :=
    hfl _ (isBinary32_half _ (1 - (keys.length : ℤ)) (by push_cast; ring)
      ⟨by omega, by omega⟩)
  have e5 : fl (i : ℚ) = (i : ℚ) :=
    hfl _ (isBinary32_half _ (2 * (i : ℤ)) (by push_cast; ring) ⟨by omega, by omega⟩)
  have e6 : fl ((i : ℚ) * 1) = (i : ℚ) * 1 :=
    hfl _ (isBinary32_half _ (2 * (i : ℤ)) (by push_cast; ring) ⟨by omega, by omega⟩)
  have e7 : fl (-9 / 2 + (10 - (keys.length : ℚ)) * (1 / 2) + (i : ℚ) * 1)
      = -9 / 2 + (10 - (keys.length : ℚ)) * (1 / 2) + (i : ℚ) * 1 :=
    hfl _ (isBinary32_half _ (1 - (keys.length : ℤ) + 2 * (i : ℤ)) (by push_cast; ring)
      ⟨by omega, by omega⟩)
  simp only [drawKeyRow.keyPosition, drawKeyRow.offsetX, hsub, e1, e2, e3, e4, e5, e6, e7]

/-- One iteration of the key loop on a present shader: the transform is
published for the position `keyPosition` computes, the flat colour follows,
and one box is drawn against the shader record so reached. -/
theorem drawKeyRow_body_present {M : Type} (fl : ℚ → ℚ) (G : GLM ℚ M) (keyScale : vec3 ℚ)
    (startX spacingX startZ : ℚ) (keys : List String) (rowZ : ℚ)
    (s : SceneManager ℚ M) (sh : ShaderManager ℚ M) (i : Nat)
    (hsh : s.m_pShaderManager = some sh) :
    ∃ sh1 : ShaderManager ℚ M,
      drawKeyRow.body fl G keyScale startX spacingX startZ keys rowZ s i
        = .ok { s with
            m_pShaderManager := some sh1
            m_basicMeshes := { draws := s.m_basicMeshes.draws ++ [(Mesh.box, some sh1)] } } ∧
      sh1.latched "model" = some (.mat4Value
        (G.mul (G.mul (G.mul (G.mul
          (G.translate (drawKeyRow.keyPosition fl startX spacingX startZ keys rowZ i))
          (G.rotate (G.radians (fl 0)) ⟨0, 0, 1⟩)) (G.rotate (G.radians (fl 0)) ⟨0, 1, 0⟩))
          (G.rotate (G.radians (fl 0)) ⟨1, 0, 0⟩)) (G.scale keyScale))) := by
  refine ⟨((sh.setMat4Value g_ModelName
      (G.mul (G.mul (G.mul (G.mul
        (G.translate (drawKeyRow.keyPosition fl startX spacingX startZ keys rowZ i))
        (G.rotate (G.radians (fl 0)) ⟨0, 0, 1⟩)) (G.rotate (G.radians (fl 0)) ⟨0, 1, 0⟩))
        (G.rotate (G.radians (fl 0)) ⟨1, 0, 0⟩)) (G.scale keyScale))).setIntValue
      g_UseTextureName (boolToInt false)).setVec4Value g_ColorValueName
      ⟨fl (83 / 100), fl (83 / 100), fl (83 / 100), fl 1⟩, ?_, ?_⟩
  · simp [drawKeyRow.body, SetTransformations, SetShaderColor, hsh, Draw]
  · simp [ShaderManager.setMat4Value, ShaderManager.setIntValue, ShaderManager.setVec4Value,
      ShaderManager.latched_publish, g_ModelName, g_UseTextureName, g_ColorValueName]

/-- The key loop over any list of indices, on a present shader: it completes
and draws one box per index, each against the transform published for the
position `keyPosition` computes for that index. -/
theorem drawKeyRow_loop_model {M : Type} (fl : ℚ → ℚ) (G : GLM ℚ M) (keyScale : vec3 ℚ)
    (startX spacingX startZ : ℚ) (keys : List String) (rowZ : ℚ) (l : List Nat) :
    ∀ (s : SceneManager ℚ M) (sh : ShaderManager ℚ M), s.m_pShaderManager = some sh →
      ∃ s1 : SceneManager ℚ M,
        l.foldlM (drawKeyRow.body fl G keyScale startX spacingX startZ keys rowZ) s = .ok s1 ∧
        s1.m_basicMeshes.draws.map modelAtDraw = s.m_basicMeshes.draws.map modelAtDraw ++
          l.map (fun i : ℕ => (Mesh.box, some (UniformValue.mat4Value
            (G.mul (G.mul (G.mul (G.mul
              (G.translate (drawKeyRow.keyPosition fl startX spacingX startZ keys rowZ i))
              (G.rotate (G.radians (fl 0)) ⟨0, 0, 1⟩)) (G.rotate (G.radians (fl 0)) ⟨0, 1, 0⟩))
              (G.rotate (G.radians (fl 0)) ⟨1, 0, 0⟩)) (G.scale keyScale))))) := by
  induction l with
  | nil =>
    intro s sh _
    exact ⟨s, rfl, by simp⟩
  | cons i l ih =>
    intro s sh hsh
    obtain ⟨sh1, hb, hm⟩ :=
      drawKeyRow_body_present fl G keyScale startX spacingX startZ keys rowZ s sh i hsh
    obtain ⟨s2, h2, hd2⟩ := ih
      { s with
        m_pShaderManager := some sh1
        m_basicMeshes := { draws := s.m_basicMeshes.draws ++ [(Mesh.box, some sh1)] } } sh1 rfl
    refine ⟨s2, ?_, ?_⟩
    · rw [List.foldlM_cons, hb]
      exact h2
    · have hm1 : sh1.latched g_ModelName = some (UniformValue.mat4Value
          (G.mul (G.mul (G.mul (G.mul
            (G.translate (drawKeyRow.keyPosition fl startX spacingX startZ keys rowZ i))
            (G.rotate (G.radians (fl 0)) ⟨0, 0, 1⟩)) (G.rotate (G.radians (fl 0)) ⟨0, 1, 0⟩))
            (G.rotate (G.radians (fl 0)) ⟨1, 0, 0⟩)) (G.scale keyScale))) := hm
      rw [hd2]
      simp [modelAtDraw, hm1]

/-- C9. For every key row of length `k ≤ 10`, so for `1 ≤ k ≤ 10`, with
`startX = -4.5` and `spacingX = 1.0`, on a present shader and for every
rounding `fl` that leaves binary32 values alone: `drawKeyRow` completes and
issues `k` box draws after the draws recorded before, and the box of key `i`
is drawn against the `model` matrix built, in the order of
`SetTransformations`, from the translation to
`(startX + (10 - k) * 0.5 + i * spacingX, 0.5, startZ + rowZ)`, three
rotations by 0 degrees and the key scale. So the first key is placed at
`X = startX + (10 - k) * 0.5` and the X of successive keys goes up by
`spacingX`, with no rounding error; the list `drawKeyRow.xs` of the X
coordinates says the same. -/
theorem drawKeyRow_row_centering {M : Type} (fl : ℚ → ℚ)
    (hfl : ∀ q, isBinary32 q → fl q = q) (G : GLM ℚ M) (keyScale : vec3 ℚ)
    (s : SceneManager ℚ M) (sh : ShaderManager ℚ M) (hsh : s.m_pShaderManager = some sh)
    (keys : List String) (h10 : keys.length ≤ 10) (startZ rowZ : ℚ) :
    ∃ s1 : SceneManager ℚ M,
      drawKeyRow fl G keyScale (-9 / 2) 1 startZ s keys rowZ = .ok s1 ∧
      s1.m_basicMeshes.draws.map modelAtDraw = s.m_basicMeshes.draws.map modelAtDraw ++
        (List.range keys.length).map (fun i : ℕ => (Mesh.box, some (UniformValue.mat4Value
          (G.mul (G.mul (G.mul (G.mul
            (G.translate ⟨-9 / 2 + (10 - (keys.length : ℚ)) * (1 / 2) + (i : ℚ) * 1, 1 / 2,
              fl (startZ + rowZ)⟩)
            (G.rotate (G.radians 0) ⟨0, 0, 1⟩)) (G.rotate (G.radians 0) ⟨0, 1, 0⟩))
            (G.rotate (G.radians 0) ⟨1, 0, 0⟩)) (G.scale keyScale))))) ∧
      drawKeyRow.xs fl (-9 / 2) 1 startZ keys rowZ
        = (List.range keys.length).map
            (fun i : ℕ => -9 / 2 + (10 - (keys.length : ℚ)) * (1 / 2) + (i : ℚ) * 1) := by
  have h0 : fl 0 = 0 := hfl _ (isBinary32_half _ 0 (by norm_num) ⟨by omega, by omega⟩)
  obtain ⟨s1, hrun, hd⟩ := drawKeyRow_loop_model fl G keyScale (-9 / 2) 1 startZ keys rowZ
    (List.range keys.length) s sh hsh
  refine ⟨s1, hrun, ?_, ?_⟩
  · rw [hd, h0]
    congr 1
    apply List.map_congr_left
    intro i hi
    rw [drawKeyRow_keyPosition_exact fl hfl keys h10 startZ rowZ i (List.mem_range.mp hi)]
  · unfold drawKeyRow.xs
    apply List.map_congr_left
    intro i hi
    rw [drawKeyRow_keyPosition_exact fl hfl keys h10 startZ rowZ i (List.mem_range.mp hi)]

/-- In the exact instance of GLM with angles in degrees, the `model` matrix of
an object that is not rotated has the scale on its diagonal and the position
in its last column. -/
theorem glmDegrees_model_unrotated (scaleXYZ positionXYZ : vec3 ℚ) :
    glmDegrees.mul (glmDegrees.mul (glmDegrees.mul (glmDegrees.mul
        (glmDegrees.translate positionXYZ)
        (glmDegrees.rotate (glmDegrees.radians 0) ⟨0, 0, 1⟩))
        (glmDegrees.rotate (glmDegrees.radians 0) ⟨0, 1, 0⟩))
        (glmDegrees.rotate (glmDegrees.radians 0) ⟨1, 0, 0⟩)) (glmDegrees.scale scaleXYZ)
      = !![scaleXYZ.x, 0, 0, positionXYZ.x; 0, scaleXYZ.y, 0, positionXYZ.y;
           0, 0, scaleXYZ.z, positionXYZ.z; 0, 0, 0, 1] := by
  have hI := glmExact_identity cosDegrees sinDegrees 1 (by norm_num [cosDegrees])
    (by norm_num [sinDegrees])
  have hZ : glmDegrees.rotate (glmDegrees.radians 0) ⟨0, 0, 1⟩ = 1 := hI.2.2.2.1
  have hY : glmDegrees.rotate (glmDegrees.radians 0) ⟨0, 1, 0⟩ = 1 := hI.2.2.1
  have hX : glmDegrees.rotate (glmDegrees.radians 0) ⟨1, 0, 0⟩ = 1 := hI.2.1
  rw [hZ, hY, hX]
  have hmul : ∀ A B : Matrix (Fin 4) (Fin 4) ℚ, glmDegrees.mul A B = A * B := fun _ _ => rfl
  rw [hmul, hmul, hmul, hmul, mul_one, mul_one, mul_one]
  ext i j
  fin_cases i <;> fin_cases j <;>
    simp [glmDegrees, glmExact, Matrix.mul_apply, Fin.sum_univ_four, Matrix.vecHead,
      Matrix.vecTail]

/-- C9 on the scenario of the spec, on the prepared scene and the exact
instance of GLM: the row of the seven keys of `row3` is seven box draws, and
the last column of their `model` matrices puts them at
X = -3, -2, -1, 0, 1, 2, 3, the first at -3.0 and the last at +3.0. -/
theorem drawKeyRow_row_centering_witness :
    ∃ s1 : SceneManager ℚ (Matrix (Fin 4) (Fin 4) ℚ),
      drawKeyRow id glmDegrees ⟨4 / 5, 1 / 5, 4 / 5⟩ (-9 / 2) 1 1 preparedScene row3 3
        = .ok s1 ∧
      s1.m_basicMeshes.draws.map modelAtDraw =
        [-3, -2, -1, 0, 1, 2, 3].map (fun x : ℚ => (Mesh.box, some (UniformValue.mat4Value
          !![4 / 5, 0, 0, x; 0, 1 / 5, 0, 1 / 2; 0, 0, 4 / 5, 4; 0, 0, 0, 1]))) ∧
      drawKeyRow.xs id (-9 / 2) 1 1 row3 3 = [-3, -2, -1, 0, 1, 2, 3] := by
  obtain ⟨s1, h1, h2, h3⟩ := drawKeyRow_row_centering id (fun _ _ => rfl) glmDegrees
    ⟨4 / 5, 1 / 5, 4 / 5⟩ preparedScene _ rfl row3 (by decide) 1 3
  refine ⟨s1, h1, ?_, ?_⟩
  · rw [h2]
    simp only [glmDegrees_model_unrotated, preparedScene, row3, List.length_cons,
      List.length_nil, List.range, List.range.loop, List.map_cons, List.map_nil,
      List.nil_append, id]
    norm_num
  · rw [h3]
    simp only [row3, List.length_cons, List.length_nil, List.range, List.range.loop,
      List.map_cons, List.map_nil]
    norm_num

/-- C5 on a registry where two records carry the tag `"ceramicRed"`: the three
uniforms are written with the values of the first of them. -/
theorem SetShaderMaterial_hit_witness :
    ∃ sh1 : ShaderManager ℚ Unit,
      SetShaderMaterial
          { (fresh (some ⟨[]⟩) 16 : SceneManager ℚ Unit) with
            m_objectMaterials := [defaultMaterial, ceramicRed, ceramicRedLater] }
          "ceramicRed" staleMaterial
        = .ok { (fresh (some ⟨[]⟩) 16 : SceneManager ℚ Unit) with
            m_objectMaterials := [defaultMaterial, ceramicRed, ceramicRedLater]
            m_pShaderManager := some sh1 } ∧
      sh1.writes =
        [("material.diffuseColor", .vec3Value ⟨1, 0, 0⟩),
         ("material.specularColor", .vec3Value ⟨9 / 10, 9 / 10, 9 / 10⟩),
         ("material.shininess", .floatValue 64)] := by
  obtain ⟨sh1, h1, h2, -⟩ := SetShaderMaterial_hit
    { (fresh (some ⟨[]⟩) 16 : SceneManager ℚ Unit) with
      m_objectMaterials := [defaultMaterial, ceramicRed, ceramicRedLater] }
    ⟨[]⟩ "ceramicRed" 1 ceramicRed staleMaterial rfl rfl rfl (by
      intro j r hj hr
      have hj0 : j = 0 := by omega
      subst hj0
      simp only [List.getElem?_cons_zero, Option.some.injEq] at hr
      subst hr
      decide)
  exact ⟨sh1, h1, h2⟩

/-- C4, the code at the scenario of the spec. With the registry `{"default"}`
and the material `"default"` latched on a present shader,
`SetShaderMaterial("missing")` writes all three material uniforms again, with
the contents of its uninitialised local, whatever they are; with the contents
`staleMaterial` the latched `material.diffuseColor` goes from `(1,1,1)` to
`(-7,5,3)`. -/
theorem SetShaderMaterial_missing_tag_overwrites :
    (∀ material : OBJECT_MATERIAL ℚ,
      SetShaderMaterial (sceneWithDefaultMaterial (some shaderWithDefaultMaterial))
          "missing" material
        = .ok (sceneWithDefaultMaterial (some
            { writes := shaderWithDefaultMaterial.writes ++
                [("material.diffuseColor", .vec3Value material.diffuseColor),
                 ("material.specularColor", .vec3Value material.specularColor),
                 ("material.shininess", .floatValue material.shininess)] }))) ∧
    shaderWithDefaultMaterial.latched "material.diffuseColor" = some (.vec3Value ⟨1, 1, 1⟩) ∧
    (∃ sh1 : ShaderManager ℚ Unit,
      SetShaderMaterial (sceneWithDefaultMaterial (some shaderWithDefaultMaterial))
          "missing" staleMaterial = .ok (sceneWithDefaultMaterial (some sh1)) ∧
      sh1.latched "material.diffuseColor" = some (.vec3Value ⟨-7, 5, 3⟩)) := by
  have hall : ∀ material : OBJECT_MATERIAL ℚ,
      SetShaderMaterial (sceneWithDefaultMaterial (some shaderWithDefaultMaterial))
          "missing" material
        = .ok (sceneWithDefaultMaterial (some
            { writes := shaderWithDefaultMaterial.writes ++
                [("material.diffuseColor", .vec3Value material.diffuseColor),
                 ("material.specularColor", .vec3Value material.specularColor),
                 ("material.shininess", .floatValue material.shininess)] })) := by
    intro material
    rw [SetShaderMaterial_miss (sceneWithDefaultMaterial (some shaderWithDefaultMaterial))
      shaderWithDefaultMaterial "missing" material rfl (by decide) (by decide)]
    simp [sceneWithDefaultMaterial, fresh, withTextures, ShaderManager.setVec3Value,
      ShaderManager.setFloatValue, ShaderManager.publish]
  refine ⟨hall, by decide, ⟨_, hall staleMaterial, by decide⟩⟩

/-- Within its budget the loop of `FindMaterial` always comes to an end. -/
theorem FindMaterial_loop_total (s : SceneManager F M) (tag : String) :
    ∀ (d index : Nat) (material : OBJECT_MATERIAL F) (fuel : Nat),
      index + d = s.m_objectMaterials.length → d + 2 ≤ fuel →
      ∃ m1, FindMaterial.loop s tag fuel index false material = .ok m1 := by
  intro d
  induction d with
  | zero =>
    intro index material fuel hidx hfuel
    obtain ⟨f, rfl⟩ : ∃ f, fuel = f + 1 := ⟨fuel - 1, by omega⟩
    have hnlt : ¬ index < s.m_objectMaterials.length := by omega
    exact ⟨material, by simp [FindMaterial.loop, hnlt]⟩
  | succ d ih =>
    intro index material fuel hidx hfuel
    obtain ⟨f, rfl⟩ : ∃ f, fuel = f + 2 := ⟨fuel - 2, by omega⟩
    have hin : index < s.m_objectMaterials.length := by omega
    have hget : s.m_objectMaterials[index]? = some (s.m_objectMaterials[index]) :=
      List.getElem?_eq_getElem hin
    by_cases htag : (s.m_objectMaterials[index]).tag = tag
    · exact ⟨{ material with
          diffuseColor := (s.m_objectMaterials[index]).diffuseColor
          specularColor := (s.m_objectMaterials[index]).specularColor
          shininess := (s.m_objectMaterials[index]).shininess },
        by simp [FindMaterial.loop, hin, hget, htag]⟩
    · rw [FindMaterial.loop]
      simp only [hin, hget, htag, and_self, if_true, if_false]
      exact ih (index + 1) material (f + 1) (by omega) (by omega)

/-- In a registry that is not empty `FindMaterial` returns `true` for every
tag. -/
theorem FindMaterial_nonempty (s : SceneManager F M) (tag : String)
    (material : OBJECT_MATERIAL F) (hne : s.m_objectMaterials ≠ []) :
    ∃ m1, FindMaterial s tag material = .ok (true, m1) := by
  have hlen : ¬ s.m_objectMaterials.length = 0 := by
    intro h
    exact hne (List.length_eq_zero.mp h)
  obtain ⟨m1, h1⟩ := FindMaterial_loop_total s tag s.m_objectMaterials.length 0 material
    (s.m_objectMaterials.length + 2) (by omega) (by omega)
  exact ⟨m1, by unfold FindMaterial; rw [if_neg hlen, h1]⟩

/-- Without a shader and with a material registry that is not empty,
`SetShaderMaterial` dereferences the null pointer, whatever the tag. -/
theorem SetShaderMaterial_null_shader (s : SceneManager F M) (tag : String)
    (material : OBJECT_MATERIAL F) (hsh : s.m_pShaderManager = none)
    (hne : s.m_objectMaterials ≠ []) :
    SetShaderMaterial s tag material = .error .nullDereference := by
  have hlen : s.m_objectMaterials.length > 0 := by
    cases hm : s.m_objectMaterials with
    | nil => exact absurd hm hne
    | cons a l => simp
  obtain ⟨m1, h1⟩ := FindMaterial_nonempty s tag material hne
  unfold SetShaderMaterial
  rw [if_pos hlen, h1]
  simp [hsh]

/-- Without a shader the four guarded operations return the state they were
given, for every argument. -/
theorem guarded_operations_null_shader [Zero F] [One F] (G : GLM F M) (s : SceneManager F M)
    (hsh : s.m_pShaderManager = none) :
    (∀ scaleXYZ X Y Z positionXYZ,
      SetTransformations G s scaleXYZ X Y Z positionXYZ = .ok s) ∧
    (∀ r g b a, SetShaderColor s r g b a = .ok s) ∧
    (∀ tag, SetShaderTexture s tag = .ok s) ∧
    (∀ u v, SetTextureUVScale s u v = .ok s) := by
  refine ⟨?_, ?_, ?_, ?_⟩ <;> intros <;>
    simp [SetTransformations, SetShaderColor, SetShaderTexture, SetTextureUVScale, hsh]

/-- C10, the code without a shader. With the registry `{"default"}` the four
guarded operations return the state unchanged, and `SetShaderMaterial` does
not: for the tag `"default"` and for a tag that is not registered alike it
dereferences the null `m_pShaderManager`. -/
theorem SetShaderMaterial_null_shader_dereferences :
    SetShaderColor (sceneWithDefaultMaterial none) 1 0 0 1
        = .ok (sceneWithDefaultMaterial none) ∧
      SetShaderTexture (sceneWithDefaultMaterial none) "desk"
        = .ok (sceneWithDefaultMaterial none) ∧
      SetTextureUVScale (sceneWithDefaultMaterial none) 1 1
        = .ok (sceneWithDefaultMaterial none) ∧
      (∀ material, SetShaderMaterial (sceneWithDefaultMaterial none) "default" material
        = .error .nullDereference) ∧
      (∀ material, SetShaderMaterial (sceneWithDefaultMaterial none) "missing" material
        = .error .nullDereference) :=
  ⟨rfl, rfl, rfl,
    fun material => SetShaderMaterial_null_shader _ "default" material rfl (by decide),
    fun material => SetShaderMaterial_null_shader _ "missing" material rfl (by decide)⟩

end SceneManager

/-! ## Material lookup, as the code has it -/

namespace SceneManager

variable {F M : Type}

/-- C13. For every material registry, tag and initial value of the
out-parameter, `FindMaterial` completes; the `bool` it returns is `false` if
and only if the registry is empty, so it is `true` on every registry that is
not empty, whether or not a record carries the tag; and when no record carries
the tag the out-parameter comes back exactly as the caller passed it in. -/
theorem FindMaterial_returns_true_unless_empty (s : SceneManager F M) (tag : String)
    (material : OBJECT_MATERIAL F) :
    ∃ (b : Bool) (m1 : OBJECT_MATERIAL F),
      FindMaterial s tag material = .ok (b, m1) ∧
      (b = false ↔ s.m_objectMaterials = []) ∧
      (s.m_objectMaterials ≠ [] → b = true) ∧
      ((∀ r ∈ s.m_objectMaterials, r.tag ≠ tag) → m1 = material) := by
  by_cases hne : s.m_objectMaterials = []
  · refine ⟨false, material, ?_, ?_, ?_, ?_⟩
    · simp [FindMaterial, hne]
    · simp [hne]
    · intro h
      exact absurd hne h
    · intro _
      rfl
  · obtain ⟨m1, h1⟩ := FindMaterial_nonempty s tag material hne
    refine ⟨true, m1, h1, ?_, ?_, ?_⟩
    · simp [hne]
    · intro _
      rfl
    · intro hmiss
      have h2 := FindMaterial_miss s tag material hne hmiss
      rw [h1] at h2
      have h3 := Except.ok.inj h2
      exact (Prod.mk.inj h3).2

/-- C13 on three registries: the empty one gives `false`; `{"default"}` gives
`true` for the tag `"default"` with the three shading fields copied, and
`true` for the tag `"missing"` with the out-parameter untouched. -/
theorem FindMaterial_returns_true_unless_empty_witness :
    FindMaterial (fresh none 16 : SceneManager ℚ Unit) "default" staleMaterial
        = .ok (false, staleMaterial) ∧
      FindMaterial (sceneWithDefaultMaterial none) "default" staleMaterial
        = .ok (true, { defaultMaterial with tag := "" }) ∧
      FindMaterial (sceneWithDefaultMaterial none) "missing" staleMaterial
        = .ok (true, staleMaterial) := by
  obtain ⟨b, m1, h1, h2, -, h4⟩ :=
    FindMaterial_returns_true_unless_empty (sceneWithDefaultMaterial none) "missing"
      staleMaterial
  have hb : b = true := by
    cases b with
    | true => rfl
    | false => exact absurd (h2.mp rfl) (by decide)
  have hm : m1 = staleMaterial := h4 (by decide)
  subst hb
  subst hm
  exact ⟨rfl, rfl, h1⟩

end SceneManager

/-! ## Rotation order -/

/-- The real-number GLM maps the degenerate arguments to the identity matrix. -/
theorem glmReal_identity :
    glmReal.scale ⟨1, 1, 1⟩ = 1 ∧
    glmReal.rotate (glmReal.radians 0) ⟨1, 0, 0⟩ = 1 ∧
    glmReal.rotate (glmReal.radians 0) ⟨0, 1, 0⟩ = 1 ∧
    glmReal.rotate (glmReal.radians 0) ⟨0, 0, 1⟩ = 1 ∧
    glmReal.translate ⟨0, 0, 0⟩ = 1 := by
  refine ⟨?_, ?_, ?_, ?_, ?_⟩ <;>
    · ext i j
      fin_cases i <;> fin_cases j <;> simp [glmReal] <;> rfl

/-- The rotation by 90 degrees about the X axis, in the real-number GLM: the
cosine of the angle is 0 and its sine is 1. -/
theorem glmReal_rotate_X_90 :
    glmReal.rotate (glmReal.radians 90) ⟨1, 0, 0⟩
      = !![1, 0, 0, 0; 0, 0, -1, 0; 0, 1, 0, 0; 0, 0, 0, 1] := by
  have h : (90 : ℝ) * (Real.pi / 180) = Real.pi / 2 := by ring
  ext i j
  fin_cases i <;> fin_cases j <;> simp [glmReal, h]

/-- The rotation by 90 degrees about the Y axis, in the real-number GLM. -/
theorem glmReal_rotate_Y_90 :
    glmReal.rotate (glmReal.radians 90) ⟨0, 1, 0⟩
      = !![0, 0, 1, 0; 0, 1, 0, 0; -1, 0, 0, 0; 0, 0, 0, 1] := by
  have h : (90 : ℝ) * (Real.pi / 180) = Real.pi / 2 := by ring
  ext i j
  fin_cases i <;> fin_cases j <;> simp [glmReal, h]

namespace SceneManager

variable {F M : Type}

/-- With scale `(1,1,1)`, position `(0,0,0)` and two of the three angles 0,
what `SetTransformations` publishes is the one rotation that is left: about
`(1,0,0)` for the X angle, about `(0,1,0)` for the Y angle. `I` is what GLM
returns at the degenerate arguments, a unit of its product on itself and on
the two rotations. -/
theorem SetTransformations_single_rotation [Zero F] [One F] (G : GLM F M)
    (s : SceneManager F M) (sh : ShaderManager F M) (I : M) (a : F)
    (hsh : s.m_pShaderManager = some sh)
    (hS : G.scale ⟨1, 1, 1⟩ = I) (hX : G.rotate (G.radians 0) ⟨1, 0, 0⟩ = I)
    (hY : G.rotate (G.radians 0) ⟨0, 1, 0⟩ = I) (hZ : G.rotate (G.radians 0) ⟨0, 0, 1⟩ = I)
    (hT : G.translate ⟨0, 0, 0⟩ = I) (hII : G.mul I I = I)
    (hlX : G.mul I (G.rotate (G.radians a) ⟨1, 0, 0⟩) = G.rotate (G.radians a) ⟨1, 0, 0⟩)
    (hrX : G.mul (G.rotate (G.radians a) ⟨1, 0, 0⟩) I = G.rotate (G.radians a) ⟨1, 0, 0⟩)
    (hlY : G.mul I (G.rotate (G.radians a) ⟨0, 1, 0⟩) = G.rotate (G.radians a) ⟨0, 1, 0⟩)
    (hrY : G.mul (G.rotate (G.radians a) ⟨0, 1, 0⟩) I = G.rotate (G.radians a) ⟨0, 1, 0⟩) :
    SetTransformations G s ⟨1, 1, 1⟩ a 0 0 ⟨0, 0, 0⟩
        = .ok { s with
            m_pShaderManager :=
              some (sh.setMat4Value "model" (G.rotate (G.radians a) ⟨1, 0, 0⟩)) } ∧
      SetTransformations G s ⟨1, 1, 1⟩ 0 a 0 ⟨0, 0, 0⟩
        = .ok { s with
            m_pShaderManager :=
              some (sh.setMat4Value "model" (G.rotate (G.radians a) ⟨0, 1, 0⟩)) } := by
  constructor
  · simp [SetTransformations, hsh, hS, hY, hZ, hT, hII, hlX, hrX, g_ModelName]
  · simp [SetTransformations, hsh, hS, hX, hZ, hT, hII, hlY, hrY, g_ModelName]

/-- C11. With `s = (1,1,1)` and `p = (0,0,0)`, on a present shader and with
the real-number GLM: for the rotations `(X=90, Y=0, Z=0)` `SetTransformations`
publishes as `model` the matrix that turns Y into Z, for `(X=0, Y=90, Z=0)`
the matrix that turns Z into X, and the two matrices differ. -/
theorem SetTransformations_X_versus_Y (s : SceneManager ℝ (Matrix (Fin 4) (Fin 4) ℝ))
    (sh : ShaderManager ℝ (Matrix (Fin 4) (Fin 4) ℝ)) (hsh : s.m_pShaderManager = some sh) :
    ∃ mX mY : Matrix (Fin 4) (Fin 4) ℝ,
      SetTransformations glmReal s ⟨1, 1, 1⟩ 90 0 0 ⟨0, 0, 0⟩
        = .ok { s with m_pShaderManager := some (sh.setMat4Value "model" mX) } ∧
      SetTransformations glmReal s ⟨1, 1, 1⟩ 0 90 0 ⟨0, 0, 0⟩
        = .ok { s with m_pShaderManager := some (sh.setMat4Value "model" mY) } ∧
      mX = !![1, 0, 0, 0; 0, 0, -1, 0; 0, 1, 0, 0; 0, 0, 0, 1] ∧
      mY = !![0, 0, 1, 0; 0, 1, 0, 0; -1, 0, 0, 0; 0, 0, 0, 1] ∧
      mX ≠ mY := by
  have hI := glmReal_identity
  obtain ⟨h1, h2⟩ := SetTransformations_single_rotation glmReal s sh 1 90 hsh
    hI.1 hI.2.1 hI.2.2.1 hI.2.2.2.1 hI.2.2.2.2
    (one_mul 1) (one_mul _) (mul_one _) (one_mul _) (mul_one _)
  refine ⟨_, _, h1, h2, glmReal_rotate_X_90, glmReal_rotate_Y_90, ?_⟩
  rw [glmReal_rotate_X_90, glmReal_rotate_Y_90]
  intro heq
  have h00 := congrFun (congrFun heq 0) 0
  simp at h00

/-- C11 on a scene manager with an empty shader record: the only write of
each call is `model`, with the two different matrices. -/
theorem SetTransformations_X_versus_Y_witness :
    ∃ mX mY : Matrix (Fin 4) (Fin 4) ℝ,
      SetTransformations glmReal (fresh (some ⟨[]⟩) 16) ⟨1, 1, 1⟩ 90 0 0 ⟨0, 0, 0⟩
        = .ok { (fresh (some ⟨[]⟩) 16 : SceneManager ℝ (Matrix (Fin 4) (Fin 4) ℝ)) with
            m_pShaderManager := some ⟨[("model", .mat4Value mX)]⟩ } ∧
      SetTransformations glmReal (fresh (some ⟨[]⟩) 16) ⟨1, 1, 1⟩ 0 90 0 ⟨0, 0, 0⟩
        = .ok { (fresh (some ⟨[]⟩) 16 : SceneManager ℝ (Matrix (Fin 4) (Fin 4) ℝ)) with
            m_pShaderManager := some ⟨[("model", .mat4Value mY)]⟩ } ∧
      mX = !![1, 0, 0, 0; 0, 0, -1, 0; 0, 1, 0, 0; 0, 0, 0, 1] ∧
      mY = !![0, 0, 1, 0; 0, 1, 0, 0; -1, 0, 0, 0; 0, 0, 0, 1] ∧
      mX ≠ mY :=
  SetTransformations_X_versus_Y (fresh (some ⟨[]⟩) 16) ⟨[]⟩ rfl

end SceneManager

/-! ## Lighting across the draws of one pass -/

namespace ShaderManager

variable {F M : Type}

/-- Writes to other names leave the latched value of a name alone. -/
theorem latched_of_writes_append (sh sh1 : ShaderManager F M) (name : String)
    (ws : List (String × UniformValue F M)) (h : sh1.writes = sh.writes ++ ws)
    (hn : ∀ w ∈ ws, w.1 ≠ name) : sh1.latched name = sh.latched name := by
  unfold latched
  rw [h, List.reverse_append, List.find?_append]
  have hnone : ws.reverse.find? (fun w => decide (w.1 = name)) = none := by
    rw [List.find?_eq_none]
    intro w hw
    simpa using hn w (List.mem_reverse.mp hw)
  rw [hnone]
  rfl

end ShaderManager

namespace SceneManager

variable {M : Type}

/-- One iteration of the key loop on a present shader draws one box and
leaves the registry and the latched `bUseLighting` as they were. -/
theorem drawKeyRow_body_lighting (fl : ℚ → ℚ) (G : GLM ℚ M) (keyScale : vec3 ℚ)
    (startX spacingX startZ : ℚ) (keys : List String) (rowZ : ℚ)
    (s : SceneManager ℚ M) (sh : ShaderManager ℚ M) (i : Nat)
    (hsh : s.m_pShaderManager = some sh) :
    ∃ sh1 : ShaderManager ℚ M,
      drawKeyRow.body fl G keyScale startX spacingX startZ keys rowZ s i
        = .ok { s with
            m_pShaderManager := some sh1
            m_basicMeshes := { draws := s.m_basicMeshes.draws ++ [(Mesh.box, some sh1)] } } ∧
      sh1.latched g_UseLightingName = sh.latched g_UseLightingName := by
  refine ⟨((sh.setMat4Value g_ModelName
      (G.mul (G.mul (G.mul (G.mul
        (G.translate (drawKeyRow.keyPosition fl startX spacingX startZ keys rowZ i))
        (G.rotate (G.radians (fl 0)) ⟨0, 0, 1⟩)) (G.rotate (G.radians (fl 0)) ⟨0, 1, 0⟩))
        (G.rotate (G.radians (fl 0)) ⟨1, 0, 0⟩)) (G.scale keyScale))).setIntValue
      g_UseTextureName (boolToInt false)).setVec4Value g_ColorValueName
      ⟨fl (83 / 100), fl (83 / 100), fl (83 / 100), fl 1⟩, ?_, ?_⟩
  · simp [drawKeyRow.body, SetTransformations, SetShaderColor, hsh, Draw]
  · simp [ShaderManager.setMat4Value, ShaderManager.setIntValue, ShaderManager.setVec4Value,
      ShaderManager.latched_publish, g_ModelName, g_UseTextureName, g_ColorValueName,
      g_UseLightingName]

/-- The key loop over any list of indices, on a present shader: it completes,
draws one box per index under the lighting latched at its start, and leaves
the registry and the latched `bUseLighting` as they were. -/
theorem drawKeyRow_loop_lighting (fl : ℚ → ℚ) (G : GLM ℚ M) (keyScale : vec3 ℚ)
    (startX spacingX startZ : ℚ) (keys : List String) (rowZ : ℚ) (l : List Nat) :
    ∀ (s : SceneManager ℚ M) (sh : ShaderManager ℚ M), s.m_pShaderManager = some sh →
      ∃ (s1 : SceneManager ℚ M) (sh1 : ShaderManager ℚ M),
        l.foldlM (drawKeyRow.body fl G keyScale startX spacingX startZ keys rowZ) s = .ok s1 ∧
        s1.m_pShaderManager = some sh1 ∧
        s1.m_textureIDs = s.m_textureIDs ∧ s1.m_loadedTextures = s.m_loadedTextures ∧
        s1.m_basicMeshes.draws.map lightingAtDraw = s.m_basicMeshes.draws.map lightingAtDraw ++
          List.replicate l.length (Mesh.box, sh.latched g_UseLightingName) ∧
        sh1.latched g_UseLightingName = sh.latched g_UseLightingName := by
  induction l with
  | nil =>
    intro s sh hsh
    exact ⟨s, sh, rfl, hsh, rfl, rfl, by simp, rfl⟩
  | cons i l ih =>
    intro s sh hsh
    obtain ⟨sh1, hb, hl1⟩ :=
      drawKeyRow_body_lighting fl G keyScale startX spacingX startZ keys rowZ s sh i hsh
    obtain ⟨s2, sh2, h2, hsh2, ht2, hn2, hd2, hl2⟩ := ih
      { s with
        m_pShaderManager := some sh1
        m_basicMeshes := { draws := s.m_basicMeshes.draws ++ [(Mesh.box, some sh1)] } } sh1 rfl
    refine ⟨s2, sh2, ?_, hsh2, ht2, hn2, ?_, by rw [hl2, hl1]⟩
    · rw [List.foldlM_cons, hb]
      exact h2
    · rw [hd2]
      simp [lightingAtDraw, List.replicate_succ, hl1]

/-- One statement of the scene on a present shader and a registry whose
records `0 .. n-1` exist: it completes, keeps the shader present and the
registry as it was, issues the draws `drawsOfCall` lists and latches the
lighting `lightingAfter` gives. -/
theorem sceneCall_lighting (fl : ℚ → ℚ) (G : GLM ℚ M) (material : OBJECT_MATERIAL ℚ)
    (c : SceneCall) (s : SceneManager ℚ M) (sh : ShaderManager ℚ M)
    (hsh : s.m_pShaderManager = some sh)
    (hwf : s.m_loadedTextures ≤ s.m_textureIDs.length) :
    ∃ (s1 : SceneManager ℚ M) (sh1 : ShaderManager ℚ M),
      sceneCall fl G material s c = .ok s1 ∧
      s1.m_pShaderManager = some sh1 ∧
      s1.m_textureIDs = s.m_textureIDs ∧ s1.m_loadedTextures = s.m_loadedTextures ∧
      s1.m_basicMeshes.draws.map lightingAtDraw = s.m_basicMeshes.draws.map lightingAtDraw ++
        drawsOfCall (sh.latched g_UseLightingName) c ∧
      sh1.latched g_UseLightingName = lightingAfter (sh.latched g_UseLightingName) c := by
  cases c with
  | SetTransformations scaleXYZ X Y Z positionXYZ =>
    refine ⟨?s1a, ?sh1a, ?eqa, ?sha, ?_, ?_, ?_, ?_⟩
    case eqa =>
      simp only [sceneCall, SetTransformations, hsh]
      exact rfl
    case sha => exact rfl
    · rfl
    · rfl
    · simp [drawsOfCall]
    · simp [lightingAfter, ShaderManager.setMat4Value, ShaderManager.latched_publish,
        g_ModelName, g_UseLightingName]
  | setUseLighting b =>
    refine ⟨?s1b, ?sh1b, ?eqb, ?shb, ?_, ?_, ?_, ?_⟩
    case eqb =>
      simp only [sceneCall, setUseLighting, hsh]
      exact rfl
    case shb => exact rfl
    · rfl
    · rfl
    · simp [drawsOfCall]
    · simp [lightingAfter, ShaderManager.setIntValue, ShaderManager.latched_publish]
  | SetShaderMaterial materialTag =>
    by_cases hne : s.m_objectMaterials = []
    · refine ⟨s, sh, ?_, hsh, rfl, rfl, ?_, ?_⟩
      · simp [sceneCall, SetShaderMaterial, hne]
      · simp [drawsOfCall]
      · simp [lightingAfter]
    · obtain ⟨m1, h1⟩ := FindMaterial_nonempty s materialTag material hne
      have hlen : s.m_objectMaterials.length > 0 := by
        cases hm : s.m_objectMaterials with
        | nil => exact absurd hm hne
        | cons a l => simp
      refine ⟨?s1c, ?sh1c, ?eqc, ?shc, ?_, ?_, ?_, ?_⟩
      case eqc =>
        simp only [sceneCall, SetShaderMaterial, if_pos hlen, h1, hsh, if_true]
        exact rfl
      case shc => exact rfl
      · rfl
      · rfl
      · simp [drawsOfCall]
      · simp [lightingAfter, ShaderManager.setVec3Value, ShaderManager.setFloatValue,
          ShaderManager.latched_publish, g_UseLightingName]
  | SetShaderColor r g b a =>
    refine ⟨?s1d, ?sh1d, ?eqd, ?shd, ?_, ?_, ?_, ?_⟩
    case eqd =>
      simp only [sceneCall, SetShaderColor, hsh]
      exact rfl
    case shd => exact rfl
    · rfl
    · rfl
    · simp [drawsOfCall]
    · simp [lightingAfter, ShaderManager.setIntValue, ShaderManager.setVec4Value,
        ShaderManager.latched_publish, g_UseTextureName, g_ColorValueName, g_UseLightingName]
  | SetShaderTexture textureTag =>
    obtain ⟨slot, sh1, -, h2, h3, -⟩ := SetShaderTexture_present s sh textureTag hsh hwf
    refine ⟨{ s with m_pShaderManager := some sh1 }, sh1, ?_, rfl, rfl, rfl, ?_, ?_⟩
    · simp only [sceneCall, h2]
    · simp [drawsOfCall]
    · rw [ShaderManager.latched_of_writes_append sh sh1 g_UseLightingName _ h3 (by
        intro w hw
        simp only [List.mem_cons, List.mem_singleton, List.not_mem_nil, or_false] at hw
        rcases hw with rfl | rfl <;>
          simp [g_UseTextureName, g_TextureValueName, g_UseLightingName])]
      rfl
  | SetTextureUVScale u v =>
    refine ⟨?s1e, ?sh1e, ?eqe, ?she, ?_, ?_, ?_, ?_⟩
    case eqe =>
      simp only [sceneCall, SetTextureUVScale, hsh]
      exact rfl
    case she => exact rfl
    · rfl
    · rfl
    · simp [drawsOfCall]
    · simp [lightingAfter, ShaderManager.setVec2Value, ShaderManager.latched_publish,
        g_UseLightingName]
  | Draw mesh =>
    refine ⟨Draw s mesh, sh, rfl, hsh, rfl, rfl, ?_, rfl⟩
    simp [Draw, drawsOfCall, lightingAtDraw, hsh]
  | drawKeyRow keyScale startX spacingX startZ keys rowZ =>
    obtain ⟨s1, sh1, h1, hsh1, ht1, hn1, hd1, hl1⟩ :=
      drawKeyRow_loop_lighting fl G keyScale startX spacingX startZ keys rowZ
        (List.range keys.length) s sh hsh
    refine ⟨s1, sh1, h1, hsh1, ht1, hn1, ?_, ?_⟩
    · rw [hd1, List.length_range]
      rfl
    · rw [hl1]
      rfl

/-- A list of statements of the scene on a present shader and a registry whose
records `0 .. n-1` exist: the run completes, keeps the shader present and the
registry as it was, and issues the draws of `lightingTrace`, after the draws
recorded before. -/
theorem sceneCalls_lighting (fl : ℚ → ℚ) (G : GLM ℚ M) (material : OBJECT_MATERIAL ℚ)
    (calls : List SceneCall) :
    ∀ (s : SceneManager ℚ M) (sh : ShaderManager ℚ M), s.m_pShaderManager = some sh →
      s.m_loadedTextures ≤ s.m_textureIDs.length →
      ∃ (s1 : SceneManager ℚ M) (sh1 : ShaderManager ℚ M),
        sceneCalls fl G material s calls = .ok s1 ∧
        s1.m_pShaderManager = some sh1 ∧
        s1.m_textureIDs = s.m_textureIDs ∧ s1.m_loadedTextures = s.m_loadedTextures ∧
        s1.m_basicMeshes.draws.map lightingAtDraw = s.m_basicMeshes.draws.map lightingAtDraw ++
          lightingTrace (sh.latched g_UseLightingName) calls := by
  induction calls with
  | nil =>
    intro s sh hsh _
    exact ⟨s, sh, rfl, hsh, rfl, rfl, by simp [lightingTrace]⟩
  | cons c calls ih =>
    intro s sh hsh hwf
    obtain ⟨s1, sh1, h1, hsh1, ht1, hn1, hd1, hl1⟩ :=
      sceneCall_lighting fl G material c s sh hsh hwf
    obtain ⟨s2, sh2, h2, hsh2, ht2, hn2, hd2⟩ := ih s1 sh1 hsh1 (by rw [ht1, hn1]; exact hwf)
    refine ⟨s2, sh2, ?_, hsh2, ht2.trans ht1, hn2.trans hn1, ?_⟩
    · unfold sceneCalls
      rw [List.foldlM_cons, h1]
      exact h2
    · rw [hd2, hd1, hl1, List.append_assoc]
      rfl

/-- The method `RenderScene` is the run of its statements, taken as a list. -/
theorem RenderScene_eq_sceneCalls (fl : ℚ → ℚ) (G : GLM ℚ M) (s : SceneManager ℚ M)
    (material : OBJECT_MATERIAL ℚ) :
    RenderScene fl G s material = sceneCalls fl G material s (RenderScene.calls fl) :=
  rfl

/-- The draws of one pass of `RenderScene` on a present shader, each with the
`bUseLighting` it is issued under: 1 for the desk, the wall and the two outer
mug cylinders, 0 from the foam cylinder on. The pass leaves the shader present
and the texture registry as it was. -/
theorem RenderScene_lighting_trace (fl : ℚ → ℚ) (G : GLM ℚ M) (s : SceneManager ℚ M)
    (sh : ShaderManager ℚ M) (material : OBJECT_MATERIAL ℚ)
    (hsh : s.m_pShaderManager = some sh)
    (hwf : s.m_loadedTextures ≤ s.m_textureIDs.length) :
    ∃ (s1 : SceneManager ℚ M) (sh1 : ShaderManager ℚ M),
      RenderScene fl G s material = .ok s1 ∧
      s1.m_pShaderManager = some sh1 ∧
      s1.m_textureIDs = s.m_textureIDs ∧ s1.m_loadedTextures = s.m_loadedTextures ∧
      s1.m_basicMeshes.draws.map lightingAtDraw = s.m_basicMeshes.draws.map lightingAtDraw ++
        ([(Mesh.plane, some (.intValue 1)), (Mesh.plane, some (.intValue 1)),
          (Mesh.cylinder, some (.intValue 1)), (Mesh.cylinder, some (.intValue 1)),
          (Mesh.cylinder, some (.intValue 0)), (Mesh.torus, some (.intValue 0)),
          (Mesh.box, some (.intValue 0))] ++
         List.replicate 26 (Mesh.box, some (.intValue 0)) ++
         [(Mesh.pyramid4, some (.intValue 0)), (Mesh.plane, some (.intValue 0)),
          (Mesh.box, some (.intValue 0)), (Mesh.box, some (.intValue 0)),
          (Mesh.box, some (.intValue 0)), (Mesh.plane, some (.intValue 0))]) := by
  obtain ⟨s1, sh1, h1, hsh1, ht1, hn1, hd1⟩ :=
    sceneCalls_lighting fl G material (RenderScene.calls fl) s sh hsh hwf
  refine ⟨s1, sh1, by rw [RenderScene_eq_sceneCalls, h1], hsh1, ht1, hn1, ?_⟩
  rw [hd1]
  rfl

end SceneManager

namespace SceneManager

variable {M : Type}

/-- C12, amended. One pass of `RenderScene` on a present shader (and a texture
registry whose records `0 .. n-1` exist) completes with 39 draws. The desk, the
wall, the outer mug cylinder and the red cavity are issued while the latched
`bUseLighting` is 1; the foam cylinder and every draw after it in the pass
(handle, keyboard base, the 26 keys, pyramid, the five parts of the monitor)
are issued while it is 0: nothing in the pass writes `bUseLighting` after the
foam. The pass leaves the shader present and the texture registry as it was,
so the next pass runs the same way and its desk is what turns lighting on
again. -/
theorem RenderScene_lighting_off_from_foam (fl : ℚ → ℚ) (G : GLM ℚ M)
    (s : SceneManager ℚ M) (sh : ShaderManager ℚ M) (material : OBJECT_MATERIAL ℚ)
    (hsh : s.m_pShaderManager = some sh)
    (hwf : s.m_loadedTextures ≤ s.m_textureIDs.length) :
    ∃ (s1 : SceneManager ℚ M) (sh1 : ShaderManager ℚ M),
      RenderScene fl G s material = .ok s1 ∧
      s1.m_pShaderManager = some sh1 ∧
      s1.m_textureIDs = s.m_textureIDs ∧ s1.m_loadedTextures = s.m_loadedTextures ∧
      s1.m_basicMeshes.draws.map lightingAtDraw = s.m_basicMeshes.draws.map lightingAtDraw ++
        ([(Mesh.plane, some (.intValue 1)), (Mesh.plane, some (.intValue 1)),
          (Mesh.cylinder, some (.intValue 1)), (Mesh.cylinder, some (.intValue 1)),
          (Mesh.cylinder, some (.intValue 0)), (Mesh.torus, some (.intValue 0)),
          (Mesh.box, some (.intValue 0))] ++
         List.replicate 26 (Mesh.box, some (.intValue 0)) ++
         [(Mesh.pyramid4, some (.intValue 0)), (Mesh.plane, some (.intValue 0)),
          (Mesh.box, some (.intValue 0)), (Mesh.box, some (.intValue 0)),
          (Mesh.box, some (.intValue 0)), (Mesh.plane, some (.intValue 0))]) :=
  RenderScene_lighting_trace fl G s sh material hsh hwf

/-- The state `preparedScene` is what `PrepareScene` leaves. -/
theorem PrepareScene_preparedScene :
    PrepareScene id (fun _ => some rgbImage) sceneTextureID (fresh (some ⟨[]⟩) 16)
      = .ok preparedScene := by
  rfl

/-- C12, amended, on the prepared scene: the first pass issues its 39 draws,
the first four lit, the foam and the 34 draws after it unlit. -/
theorem RenderScene_lighting_off_from_foam_witness :
    ∃ s1 : SceneManager ℚ (Matrix (Fin 4) (Fin 4) ℚ),
      RenderScene id glmDegrees preparedScene staleMaterial = .ok s1 ∧
      s1.m_basicMeshes.draws.map lightingAtDraw =
        [(Mesh.plane, some (.intValue 1)), (Mesh.plane, some (.intValue 1)),
          (Mesh.cylinder, some (.intValue 1)), (Mesh.cylinder, some (.intValue 1)),
          (Mesh.cylinder, some (.intValue 0)), (Mesh.torus, some (.intValue 0)),
          (Mesh.box, some (.intValue 0))] ++
         List.replicate 26 (Mesh.box, some (.intValue 0)) ++
         [(Mesh.pyramid4, some (.intValue 0)), (Mesh.plane, some (.intValue 0)),
          (Mesh.box, some (.intValue 0)), (Mesh.box, some (.intValue 0)),
          (Mesh.box, some (.intValue 0)), (Mesh.plane, some (.intValue 0))] := by
  obtain ⟨s1, -, h1, -, -, -, h2⟩ := RenderScene_lighting_off_from_foam id glmDegrees
    preparedScene _ staleMaterial rfl (by decide)
  exact ⟨s1, h1, h2⟩

/-- C12 as stated fails: in the first pass of `RenderScene` on the prepared
scene the draws after the foam cylinder are not issued with `bUseLighting`
back at 1; the handle, draw number 5 and the only torus, is issued while the
latched `bUseLighting` is 0. -/
theorem RenderScene_lighting_as_stated_fails :
    ¬ (∀ s1 : SceneManager ℚ (Matrix (Fin 4) (Fin 4) ℚ),
        RenderScene id glmDegrees preparedScene staleMaterial = .ok s1 →
        ∀ (i : Nat) (d : Mesh × Option (UniformValue ℚ (Matrix (Fin 4) (Fin 4) ℚ))),
          4 < i → (s1.m_basicMeshes.draws.map lightingAtDraw)[i]? = some d →
          d.2 = some (.intValue 1)) := by
  intro h
  obtain ⟨s1, -, h1, -, -, -, h2⟩ := RenderScene_lighting_trace id glmDegrees preparedScene _
    staleMaterial rfl (by decide)
  have h5 : (s1.m_basicMeshes.draws.map lightingAtDraw)[5]?
      = some (Mesh.torus, some (.intValue 0)) := by
    rw [h2]
    rfl
  have := h s1 h1 5 _ (by decide) h5
  simp at this

end SceneManager
